import Mathlib

/-!
# Verification of the aws-cloud-mole core against its specification

This file gives a shallow embedding, in Lean 4, of the core subsystems of the
aws-cloud-mole repository — the tunnel lifecycle manager
(`internal/tunnel/manager.go`, `internal/tunnel/wireguard.go`), the network
prober (`internal/network/prober.go`, `internal/network/helpers.go`), the
dynamic scaling controller (`dynamic-scaling.go`) and the instance-tier
selection (`dynamic-scaling.go`, `internal/aws/client.go`) — and proves or
refutes the specification claims about them.

Modelling conventions:
* Go machine integers (`int`, `int64`) are modelled as `Int`; no operation in
  the claims approaches 64-bit overflow.  Go integer division truncates toward
  zero, which is `Int.tdiv`.  Division by zero panics in Go; where a claim
  depends on that, the embedding returns `Option` and `none` models the panic.
* Go `float64` values (costs, budgets, utilizations) are modelled as `ℚ`; the
  claims settled here compare only values far apart, where exact rational and
  IEEE-754 comparison agree.
* External effects (the OS tunnel driver invoked through `wg-quick`, the
  `crypto/rand` byte stream, the `curve25519.ScalarBaseMult` function from
  `golang.org/x/crypto`, `ping`-based measurements) are parameters of the
  embedding, supplied through small environment records.
* Go maps are modelled as association lists with set/delete/len operations
  that keep keys unique.
-/

/-! ## Standard base64 (RFC 4648), as used by `encoding/base64.StdEncoding` -/

/-- The 64-character standard base64 alphabet. -/
def b64chars : List Char :=
  ['A','B','C','D','E','F','G','H','I','J','K','L','M','N','O','P','Q','R','S','T','U','V','W','X','Y','Z',
   'a','b','c','d','e','f','g','h','i','j','k','l','m','n','o','p','q','r','s','t','u','v','w','x','y','z',
   '0','1','2','3','4','5','6','7','8','9','+','/']

/-- Character for a 6-bit group. -/
def sextetChar (n : Nat) : Char := b64chars.getD n '?'

/-- Index of a character in the base64 alphabet (inverse of `sextetChar`). -/
def b64idx (c : Char) : Nat := b64chars.indexOf c

/-- Standard base64 encoding of a byte list (each byte `< 256`), with `=`
padding, exactly as `base64.StdEncoding.EncodeToString` produces it. -/
def encB64 : List Nat → List Char
  | [] => []
  | [a] => [sextetChar (a / 4), sextetChar (a % 4 * 16), '=', '=']
  | [a, b] => [sextetChar (a / 4), sextetChar (a % 4 * 16 + b / 16), sextetChar (b % 16 * 4), '=']
  | a :: b :: c :: rest =>
      sextetChar (a / 4) :: sextetChar (a % 4 * 16 + b / 16) ::
      sextetChar (b % 16 * 4 + c / 64) :: sextetChar (c % 64) :: encB64 rest

/-- Base64 decoding, used only to prove that `encB64` is injective. -/
def decB64 : List Char → List Nat
  | c0 :: c1 :: c2 :: c3 :: rest =>
      if c2 = '=' then [b64idx c0 * 4 + b64idx c1 / 16]
      else if c3 = '=' then [b64idx c0 * 4 + b64idx c1 / 16, b64idx c1 % 16 * 16 + b64idx c2 / 4]
      else (b64idx c0 * 4 + b64idx c1 / 16) :: (b64idx c1 % 16 * 16 + b64idx c2 / 4) ::
           (b64idx c2 % 4 * 64 + b64idx c3) :: decB64 rest
  | _ => []

/-- String form of the encoding. -/
def base64Encode (bytes : List Nat) : String := String.mk (encB64 bytes)

/-- A rational constant given directly in lowest terms.  Used instead of
decimal literals for the `float64` constants of the source so that
comparisons on them reduce inside the kernel. -/
def ratQ (num : Int) (den : Nat) (h : den ≠ 0 ∧ num.natAbs.Coprime den) : ℚ :=
  ⟨num, den, h.1, h.2⟩

/-! ## Tunnel package: key generation, configuration rendering, manager
(`internal/tunnel/wireguard.go`, `internal/tunnel/manager.go`) -/

namespace Tunnel

/-- Embeds `GenerateWireGuardKeys` (wireguard.go lines 28–44).  The 32 random
bytes delivered by `crypto/rand.Read` enter as the parameter `priv`; the
`curve25519.ScalarBaseMult` function of `golang.org/x/crypto` (external to the
repository) enters as the parameter `curve`.  The private key is the base64
encoding of the random bytes, the public key the base64 encoding of the
curve output, exactly as in the source. -/
def generateWireGuardKeys (curve : List Nat → List Nat) (priv : List Nat) : String × String :=
  (base64Encode priv, base64Encode (curve priv))

/-- `WireGuardConfig` (wireguard.go lines 15–25). -/
structure WireGuardConfig where
  interface : String
  privateKey : String
  publicKey : String
  listenPort : Int
  address : String
  peerPublicKey : String
  peerEndpoint : String
  allowedIPs : String
  mtu : Int

/-- The lines written by `generateWireGuardConfig` (wireguard.go lines
87–119), in order.  Each `builder.WriteString` call in the source writes one
line terminated by a newline, except the peer-section opener `"\n[Peer]\n"`,
which contributes a blank line followed by `[Peer]`.  The `%i` and `%s`
placeholders in the PostUp/PostDown rules are literal text in the source
(`WriteString`, not `Sprintf`). -/
def wgConfigLines (c : WireGuardConfig) : List String :=
  ["[Interface]",
   "PrivateKey = " ++ c.privateKey,
   "Address = " ++ c.address,
   "ListenPort = " ++ toString c.listenPort]
  ++ (if 0 < c.mtu then ["MTU = " ++ toString c.mtu] else [])
  ++ ["PostUp = ip route add 0.0.0.0/0 dev %i table 200",
      "PostUp = ip rule add from %s table 200",
      "PostDown = ip route del 0.0.0.0/0 dev %i table 200",
      "PostDown = ip rule del from %s table 200"]
  ++ (if c.peerPublicKey ≠ "" then
        ["", "[Peer]", "PublicKey = " ++ c.peerPublicKey]
        ++ (if c.peerEndpoint ≠ "" then ["Endpoint = " ++ c.peerEndpoint] else [])
        ++ (if c.allowedIPs ≠ "" then ["AllowedIPs = " ++ c.allowedIPs] else [])
        ++ ["PersistentKeepalive = 25"]
      else [])

/-- The full rendered configuration text of `generateWireGuardConfig`:
every line above followed by a newline. -/
def generateWireGuardConfig (c : WireGuardConfig) : String :=
  String.join ((wgConfigLines c).map (fun l => l ++ "\n"))

/-- A host file system, for the config-file write/read round trip. -/
def FileSys : Type := String → Option String

/-- Writing a file (`os.WriteFile`). -/
def writeFile (fs : FileSys) (path content : String) : FileSys :=
  fun p => if p = path then some content else fs p

/-- Reading a file back. -/
def readFile (fs : FileSys) (path : String) : Option String := fs path

/-- The config path `fmt.Sprintf("/tmp/%s.conf", config.Interface)` used by
`CreateWireGuardInterface` (wireguard.go line 50). -/
def configFilePath (c : WireGuardConfig) : String := "/tmp/" ++ c.interface ++ ".conf"

/-- The file-system effect of `CreateWireGuardInterface` (wireguard.go lines
47–64): render the configuration and write it to the per-interface path.  The
subsequent `wg-quick up` driver invocation does not modify the file. -/
def createWireGuardInterfaceFS (fs : FileSys) (c : WireGuardConfig) : FileSys :=
  writeFile fs (configFilePath c) (generateWireGuardConfig c)

/-- `TunnelConfig` (manager.go lines 18–24). -/
structure TunnelConfig where
  minTunnels : Int
  maxTunnels : Int
  baseCIDR : String
  mtu : Int
  listenPort : Int

/-- `WireGuardTunnel` (manager.go lines 27–37); the mutable status is reduced
to its `State` string, the only part the claims mention. -/
structure WireGuardTunnel where
  id : Int
  interface : String
  privateKey : String
  publicKey : String
  endpointIP : String
  port : Int
  state : String

/-- Go map assignment `m[k] = v`: the key is bound to `v`, any previous
binding removed. -/
def mapSet (m : List (Int × WireGuardTunnel)) (k : Int) (v : WireGuardTunnel) :
    List (Int × WireGuardTunnel) :=
  (k, v) :: m.filter (fun p => p.1 ≠ k)

/-- Go `delete(m, k)`. -/
def mapDelete (m : List (Int × WireGuardTunnel)) (k : Int) : List (Int × WireGuardTunnel) :=
  m.filter (fun p => p.1 ≠ k)

/-- Go `len(m)` (keys are kept unique by `mapSet`/`mapDelete`). -/
def mapLen (m : List (Int × WireGuardTunnel)) : Nat := m.length

/-- The key set of the map. -/
def mapKeys (m : List (Int × WireGuardTunnel)) : List Int := m.map Prod.fst

/-- Go map lookup `m[k]`. -/
def mapLookup (m : List (Int × WireGuardTunnel)) (k : Int) : Option WireGuardTunnel :=
  (m.find? (fun p => p.1 = k)).map Prod.snd

/-- The environment of a manager run: the `crypto/rand` byte stream (one
32-byte read per key generation, indexed by invocation), the external
curve25519 base-point multiplication, and the success or failure of each
driver call (`wg-quick up` / `wg-quick down`), indexed by driver-call
order. -/
structure ManagerEnv where
  randBytes : Nat → List Nat
  curve : List Nat → List Nat
  bringUpOk : Nat → Bool
  bringDownOk : Nat → Bool

/-- Manager state: configuration and tunnel map (manager.go lines 10–15),
plus the positions of the external random stream and driver-call sequence. -/
structure ManagerState where
  config : TunnelConfig
  tunnels : List (Int × WireGuardTunnel)
  rng : Nat
  drv : Nat

/-- A freshly constructed manager (`NewTunnelManager`, manager.go lines
62–78): empty tunnel map. -/
def freshManager (cfg : TunnelConfig) : ManagerState :=
  { config := cfg, tunnels := [], rng := 0, drv := 0 }

/-- `calculateTunnelIP` (manager.go lines 282–286): the source ignores the
configured base CIDR and always returns `10.100.(id+1).1/24`. -/
def calculateTunnelIP (tunnelID : Int) : String :=
  "10.100." ++ toString (tunnelID + 1) ++ ".1/24"

/-- `createTunnel` (manager.go lines 183–207) together with
`generateWireGuardKeys` and `configureInterface` (lines 228–268): build the
tunnel record, generate keys (consuming one random read), create the
WireGuard interface through the driver; on driver failure the tunnel is not
inserted and the call reports failure; on success the tunnel is stored with
state `"active"`.  The returned `Bool` is `true` on success (`nil` error). -/
def createTunnel (env : ManagerEnv) (s : ManagerState) (id : Int) : ManagerState × Bool :=
  let priv := base64Encode (env.randBytes s.rng)
  let pub := base64Encode (env.curve (env.randBytes s.rng))
  let s1 : ManagerState := { s with rng := s.rng + 1 }
  if env.bringUpOk s1.drv then
    let t : WireGuardTunnel :=
      { id := id
        interface := "wg" ++ toString id
        privateKey := priv
        publicKey := pub
        endpointIP := calculateTunnelIP id
        port := s.config.listenPort + id
        state := "active" }
    ({ s1 with tunnels := mapSet s1.tunnels id t, drv := s1.drv + 1 }, true)
  else
    ({ s1 with drv := s1.drv + 1 }, false)

/-- `AddTunnel` (manager.go lines 100–110): refuse at `len ≥ max`, otherwise
create a tunnel with id `len`. -/
def addTunnel (env : ManagerEnv) (s : ManagerState) : ManagerState × Bool :=
  if (mapLen s.tunnels : Int) ≥ s.config.maxTunnels then (s, false)
  else createTunnel env s (mapLen s.tunnels : Int)

/-- `destroyTunnel` (manager.go lines 210–225): fail if the id is absent;
otherwise bring the interface down through the driver and, on success, delete
the entry. -/
def destroyTunnel (env : ManagerEnv) (s : ManagerState) (id : Int) : ManagerState × Bool :=
  match mapLookup s.tunnels id with
  | none => (s, false)
  | some _ =>
      if env.bringDownOk s.drv then
        ({ s with tunnels := mapDelete s.tunnels id, drv := s.drv + 1 }, true)
      else
        ({ s with drv := s.drv + 1 }, false)

/-- `RemoveTunnel` (manager.go lines 113–130): refuse at `len ≤ min`,
otherwise destroy the tunnel with the highest id (computed, as in the source,
as a maximum starting from 0 over the key set). -/
def removeTunnel (env : ManagerEnv) (s : ManagerState) : ManagerState × Bool :=
  if (mapLen s.tunnels : Int) ≤ s.config.minTunnels then (s, false)
  else
    let highestID := (mapKeys s.tunnels).foldl max 0
    destroyTunnel env s highestID

/-- The loop body of `CreateTunnels` (manager.go lines 90–94): create tunnels
with ids `i, i+1, …`, aborting on the first failure. -/
def createTunnelsGo (env : ManagerEnv) : ManagerState → Nat → Nat → ManagerState × Bool
  | s, _, 0 => (s, true)
  | s, i, Nat.succ k =>
      let r := createTunnel env s (i : Int)
      if r.2 then createTunnelsGo env r.1 (i + 1) k else (r.1, false)

/-- `CreateTunnels` (manager.go lines 81–97): refuse if the requested count
exceeds the maximum, else run the creation loop from id 0.  There is no
rollback of already-created tunnels when a later creation fails. -/
def createTunnels (env : ManagerEnv) (s : ManagerState) (count : Int) : ManagerState × Bool :=
  if count > s.config.maxTunnels then (s, false)
  else createTunnelsGo env s 0 count.toNat

/-- An `AddTunnel` or `RemoveTunnel` call, for reasoning about arbitrary call
sequences. -/
inductive MgrOp where
  | add : MgrOp
  | remove : MgrOp

/-- Apply one call (the state after the call, whether it succeeded or
returned an error). -/
def applyOp (env : ManagerEnv) (s : ManagerState) : MgrOp → ManagerState
  | MgrOp.add => (addTunnel env s).1
  | MgrOp.remove => (removeTunnel env s).1

/-- Apply a sequence of calls. -/
def applyOps (env : ManagerEnv) (s : ManagerState) (ops : List MgrOp) : ManagerState :=
  ops.foldl (applyOp env) s

/-- The tunnel-id set is exactly `{0, …, N−1}` (with unique keys). -/
def contiguous (s : ManagerState) : Prop :=
  (mapKeys s.tunnels).Nodup ∧
  ∀ k : Int, k ∈ mapKeys s.tunnels ↔ 0 ≤ k ∧ k < (mapLen s.tunnels : Int)

end Tunnel

/-! ## Network prober (`internal/network/prober.go`, `internal/network/helpers.go`) -/

namespace Network

/-- `NetworkInterface` (prober.go lines 45–52). -/
structure NetworkInterface where
  name : String
  speed : Int
  mtu : Int
  driver : String
  offloading : List (String × Bool)
  queueCount : Int

/-- `MTUTestResult` (prober.go lines 71–75). -/
structure MTUTestResult where
  mtu : Int
  throughput : Int
  success : Bool

/-- `BandwidthTestResult` (prober.go lines 77–81); the duration is the
configured test duration. -/
structure BandwidthTestResult where
  streams : Int
  throughput : Int
  duration : Int

/-- `ProbeConfig` (prober.go lines 20–28); durations in nanoseconds. -/
structure ProbeConfig where
  testDuration : Int
  mtuDiscoveryRange : List Int
  bandwidthTestSizes : List Int
  latencyTestCount : Int
  parallelStreams : List Int
  testRegions : List String
  enableJumboFrames : Bool

/-- The default configuration built by `NewNetworkProber` (prober.go lines
99–115). -/
def defaultProbeConfig : ProbeConfig :=
  { testDuration := 30 * 1000000000
    mtuDiscoveryRange := [1200, 1500, 1800, 9000]
    bandwidthTestSizes := [1024 * 1024, 10 * 1024 * 1024, 100 * 1024 * 1024]
    latencyTestCount := 100
    parallelStreams := [1, 2, 4, 8]
    testRegions := ["us-west-2", "us-east-1", "eu-west-1"]
    enableJumboFrames := true }

/-- The external measurement environment of a probe run: the OS interface
introspection of `getDefaultInterface` (helpers.go lines 14–39), the
fragment-prohibited `ping` of `testPathMTU` (helpers.go lines 105–113), and
the latency `ping` plus output parse of `measureLatency` (helpers.go lines
126–146), which either yields the parsed average latency (nanoseconds) or an
error. -/
structure ProbeEnv where
  defaultInterface : Except String NetworkInterface
  pathMTUOk : String → Int → Bool
  latency : String → Except String Int

/-- `getTestEndpoint` (helpers.go lines 185–198): a fixed three-region map. -/
def getTestEndpoint (region : String) : Except String String :=
  if region = "us-west-2" then Except.ok "ec2.us-west-2.amazonaws.com"
  else if region = "us-east-1" then Except.ok "ec2.us-east-1.amazonaws.com"
  else if region = "eu-west-1" then Except.ok "ec2.eu-west-1.amazonaws.com"
  else Except.error ("no test endpoint for region " ++ region)

/-- Go `int64(x)` applied to a nonnegative-or-negative rational: truncation
toward zero. -/
def ratTrunc (q : ℚ) : Int := Int.tdiv q.num (q.den : Int)

/-- `testMTUThroughput` (helpers.go lines 116–123): a deterministic
simulation, `int64(500 MiB/s × (mtu−40)/mtu)`; never returns an error.  At
`mtu = 0` the source divides by zero in floating point; no claim exercises
that point, and it is mapped to `none`. -/
def testMTUThroughput (mtu : Int) : Option Int :=
  if mtu = 0 then none
  else some (ratTrunc ((500 * 1024 * 1024 : ℚ) * (((mtu : ℚ) - 40) / (mtu : ℚ))))

/-- `testBandwidth` (helpers.go lines 149–163): a deterministic simulation
with scaling factors 1.0, 1.8, 3.2, 4.2 for 1–4 streams and
`4.2 + 0.3·(n−4)` beyond; never returns an error.  At `streams ≤ 0` the
source indexes a slice at a negative position and panics; that is `none`. -/
def testBandwidth (streams : Int) : Option Int :=
  if streams ≤ 0 then none
  else if streams ≤ 4 then
    let factor : ℚ :=
      if streams = 1 then ratQ 1 1 (by norm_num) else if streams = 2 then ratQ 9 5 (by norm_num)
      else if streams = 3 then ratQ 16 5 (by norm_num) else ratQ 21 5 (by norm_num)
    some (ratTrunc ((800 * 1024 * 1024 : ℚ) * factor))
  else
    some (ratTrunc ((800 * 1024 * 1024 : ℚ) *
      (ratQ 21 5 (by norm_num) + ratQ 3 10 (by norm_num) * ((streams : ℚ) - 4))))

/-- Accumulator of the MTU-search loop: running best MTU (initially 1500),
best throughput (initially 0), and the collected test rows. -/
structure MTUAcc where
  bestMTU : Int
  bestThroughput : Int
  tests : List MTUTestResult

/-- The loop of `discoverOptimalMTU` (prober.go lines 183–217): skip jumbo
candidates when disabled, skip candidates failing the path-MTU ping, measure
throughput, track the maximum, and record a test row.  `none` models a panic
inside `testMTUThroughput`. -/
def mtuLoop (env : ProbeEnv) (jumbo : Bool) (ep : String) :
    List Int → MTUAcc → Option MTUAcc
  | [], acc => some acc
  | mtu :: rest, acc =>
      if 1500 < mtu ∧ jumbo = false then mtuLoop env jumbo ep rest acc
      else if env.pathMTUOk ep mtu = false then mtuLoop env jumbo ep rest acc
      else
        match testMTUThroughput mtu with
        | none => none
        | some tp =>
            let best := tp > acc.bestThroughput
            mtuLoop env jumbo ep rest
              { bestMTU := if best then mtu else acc.bestMTU
                bestThroughput := if best then tp else acc.bestThroughput
                tests := acc.tests ++ [{ mtu := mtu, throughput := tp, success := true }] }

/-- `discoverOptimalMTU` (prober.go lines 173–223): fails only when the test
endpoint for the region cannot be resolved; otherwise runs the candidate loop
starting from best MTU 1500 and throughput 0. -/
def discoverOptimalMTU (env : ProbeEnv) (cfg : ProbeConfig) (region : String) :
    Option (Except String MTUAcc) :=
  match getTestEndpoint region with
  | Except.error e => some (Except.error e)
  | Except.ok ep =>
      match mtuLoop env cfg.enableJumboFrames ep cfg.mtuDiscoveryRange
              { bestMTU := 1500, bestThroughput := 0, tests := [] } with
      | none => none
      | some acc => some (Except.ok acc)

/-- `measureRegionLatencies` (prober.go lines 225–248): for each configured
region, resolve the endpoint and measure latency, skipping any region that
fails either step; the function always returns `nil` — it cannot fail. -/
def measureRegionLatencies (env : ProbeEnv) (cfg : ProbeConfig) : List (String × Int) :=
  cfg.testRegions.foldl
    (fun acc region =>
      match getTestEndpoint region with
      | Except.error _ => acc
      | Except.ok ep =>
          match env.latency ep with
          | Except.error _ => acc
          | Except.ok lat => acc ++ [(region, lat)])
    []

/-- Accumulator of the bandwidth sweep: baseline (single-stream) throughput
(initially the zero value of the results struct), best stream count
(initially 1), best throughput (initially 0), and the collected rows. -/
structure BWAcc where
  baseline : Int
  bestStreams : Int
  bestThroughput : Int
  tests : List BandwidthTestResult

/-- The loop of `discoverBandwidthCapacity` (prober.go lines 259–285):
measure each stream count, record the single-stream result as baseline,
track the maximum, and record a test row.  `none` models a panic inside
`testBandwidth`. -/
def bwLoop (cfg : ProbeConfig) : List Int → BWAcc → Option BWAcc
  | [], acc => some acc
  | streams :: rest, acc =>
      match testBandwidth streams with
      | none => none
      | some tp =>
          let acc1 := if streams = 1 then { acc with baseline := tp } else acc
          let best := tp > acc1.bestThroughput
          bwLoop cfg rest
            { baseline := acc1.baseline
              bestStreams := if best then streams else acc1.bestStreams
              bestThroughput := if best then tp else acc1.bestThroughput
              tests := acc1.tests ++
                [{ streams := streams, throughput := tp, duration := cfg.testDuration }] }

/-- `discoverBandwidthCapacity` (prober.go lines 250–294): fails only when
the test endpoint cannot be resolved. -/
def discoverBandwidthCapacity (cfg : ProbeConfig) (region : String) :
    Option (Except String BWAcc) :=
  match getTestEndpoint region with
  | Except.error e => some (Except.error e)
  | Except.ok _ =>
      match bwLoop cfg cfg.parallelStreams
              { baseline := 0, bestStreams := 1, bestThroughput := 0, tests := [] } with
      | none => none
      | some acc => some (Except.ok acc)

/-- `identifyBottlenecks` (prober.go lines 296–315): classify the bottleneck
from link speed `L`, baseline `B` and burst `P` with Go (truncating) integer
division.  The source spells the cloud-side label `"aws"`; the specification
data model calls the same label `cloud`. -/
def identifyBottlenecks (localSpeed baseline burst : Int) : String :=
  if baseline < Int.tdiv localSpeed 10 then "internet"
  else if baseline < Int.tdiv localSpeed 2 then "campus"
  else if Int.tdiv burst baseline < 2 then "aws"
  else "local"

/-- The probe results assembled by `ProbeNetwork` (prober.go lines 118–154);
`Timestamp` and the `Recommendations` strings of phase 6 are omitted — no
claim depends on them — and `DetailedMetrics` is flattened to the two test
lists the phases populate. -/
structure ProbeResults where
  localInterface : NetworkInterface
  optimalMTU : Int
  baselineBandwidth : Int
  burstBandwidth : Int
  optimalStreams : Int
  bottleneckLocation : String
  awsRegionLatencies : List (String × Int)
  mtuTests : List MTUTestResult
  bandwidthTests : List BandwidthTestResult

/-- `ProbeNetwork` (prober.go lines 118–154): phase 1 (interface discovery)
is fatal on failure; phases 2–4 run in order, each propagating its error;
phase 5 classifies the bottleneck.  `none` models a Go panic in a phase. -/
def probeNetwork (env : ProbeEnv) (cfg : ProbeConfig) (region : String) :
    Option (Except String ProbeResults) :=
  match env.defaultInterface with
  | Except.error e => some (Except.error ("failed to discover local interface: " ++ e))
  | Except.ok iface =>
  match discoverOptimalMTU env cfg region with
  | none => none
  | some (Except.error e) => some (Except.error ("MTU discovery failed: " ++ e))
  | some (Except.ok mtuAcc) =>
  let latencies := measureRegionLatencies env cfg
  match discoverBandwidthCapacity cfg region with
  | none => none
  | some (Except.error e) => some (Except.error ("bandwidth testing failed: " ++ e))
  | some (Except.ok bw) =>
      some (Except.ok
        { localInterface := iface
          optimalMTU := mtuAcc.bestMTU
          baselineBandwidth := bw.baseline
          burstBandwidth := bw.bestThroughput
          optimalStreams := bw.bestStreams
          bottleneckLocation := identifyBottlenecks iface.speed bw.baseline bw.bestThroughput
          awsRegionLatencies := latencies
          mtuTests := mtuAcc.tests
          bandwidthTests := bw.tests })

end Network

/-! ## Dynamic scaling controller (`dynamic-scaling.go`) -/

namespace Scaling

/-- `ScalingConfig` (dynamic-scaling.go lines 26–36); durations in
nanoseconds. -/
structure ScalingConfig where
  minTunnels : Int
  maxTunnels : Int
  scaleUpThreshold : ℚ
  scaleDownThreshold : ℚ
  scaleInterval : Int
  scaleUpCooldown : Int
  scaleDownCooldown : Int
  elephantFlowThreshold : Int
  burstDetectionWindow : Int

/-- `BurstEvent` (dynamic-scaling.go lines 58–63); the unused `Duration`
field is omitted. -/
structure BurstEvent where
  timestamp : Int
  peakThroughput : Int
  tunnelCount : Int

/-- `TunnelMetrics` of the scaler (dynamic-scaling.go lines 47–55): the
shared metrics record, including the single `LastScaleAction` timestamp that
both cooldown checks read. -/
structure TunnelMetrics where
  totalThroughput : Int
  perTunnelThroughput : List Int
  utilizationPct : ℚ
  elephantFlows : Int
  lastScaleAction : Int
  burstHistory : List BurstEvent

/-- `ScalingAction` (dynamic-scaling.go lines 39–44).  The source formats
numeric details into the reason strings with `fmt.Sprintf`; the reasons here
keep the identifying prefix only (no claim reads them). -/
structure ScalingAction where
  action : String
  targetCount : Int
  reason : String
  timestamp : Int

/-- The local `currentTunnels := len(ts.metrics.PerTunnelThroughput)` of
`evaluateScaling` (dynamic-scaling.go line 286). -/
def currentTunnelCount (m : TunnelMetrics) : Int := (m.perTunnelThroughput.length : Int)

/-- `evaluateScaling` (dynamic-scaling.go lines 282–340): rules applied in
order — elephant-flow scale-up, utilization scale-up, utilization
scale-down, burst scale-up, no action.  Both cooldown tests subtract the
same `lastScaleAction` timestamp from `now`. -/
def evaluateScaling (cfg : ScalingConfig) (m : TunnelMetrics) (now : Int) : ScalingAction :=
  if m.elephantFlows > currentTunnelCount m ∧ currentTunnelCount m < cfg.maxTunnels ∧
     ¬(now - m.lastScaleAction < cfg.scaleUpCooldown) then
    { action := "scale_up", targetCount := min m.elephantFlows cfg.maxTunnels,
      reason := "Elephant flow scaling", timestamp := now }
  else if m.utilizationPct > cfg.scaleUpThreshold ∧ currentTunnelCount m < cfg.maxTunnels ∧
          ¬(now - m.lastScaleAction < cfg.scaleUpCooldown) then
    { action := "scale_up", targetCount := currentTunnelCount m + 1,
      reason := "High utilization", timestamp := now }
  else if m.utilizationPct < cfg.scaleDownThreshold ∧ currentTunnelCount m > cfg.minTunnels ∧
          ¬(now - m.lastScaleAction < cfg.scaleDownCooldown) then
    { action := "scale_down", targetCount := currentTunnelCount m - 1,
      reason := "Low utilization", timestamp := now }
  else if 3 ≤ m.burstHistory.length ∧ currentTunnelCount m < cfg.maxTunnels ∧
          ¬(now - m.lastScaleAction < cfg.scaleUpCooldown) then
    { action := "scale_up", targetCount := currentTunnelCount m + 2,
      reason := "Burst pattern detected", timestamp := now }
  else
    { action := "no_action", targetCount := 0, reason := "No scaling needed", timestamp := now }

/-- The metrics mutation performed by `executeScaling` (dynamic-scaling.go
lines 343–346): the single shared `LastScaleAction` timestamp is overwritten
with the timestamp of the action just decided, whatever its direction.  The
subsequent `AddTunnel`/`RemoveTunnel` loop acts on the tunnel manager and
does not touch the metrics record. -/
def executeScalingRecord (m : TunnelMetrics) (action : ScalingAction) : TunnelMetrics :=
  { m with lastScaleAction := action.timestamp }

/-- `parseThroughput` (dynamic-scaling.go lines 386–391): the source is a
placeholder that always returns 0. -/
def parseThroughput (_txBytes _rxBytes : String) : Int := 0

/-- `detectBurstEvent` (dynamic-scaling.go lines 375–383): average throughput
per tunnel against 70 % of the assumed 1.5 Gbps per-tunnel capacity.  The
source divides by `tunnelCount` with no zero guard; Go panics on integer
division by zero, modelled as `none`. -/
def detectBurstEvent (currentThroughput tunnelCount : Int) : Option Bool :=
  if tunnelCount = 0 then none
  else some (decide (1050 * 1024 * 1024 < Int.tdiv currentThroughput tunnelCount))

/-- `TunnelStatus` of the manager (manager.go lines 40–47), as consumed by
`collectMetrics` via `GetActiveTunnels`: only the state and the byte-counter
strings are read. -/
structure TunnelStatus where
  state : String
  txBytes : String
  rxBytes : String

/-- `collectMetrics` (dynamic-scaling.go lines 223–279): parse per-tunnel
throughput, count elephant flows, compute utilization against
`len · 1.5 Gbps`, then run burst detection on the totals and trim the burst
history to the detection window.  With an empty tunnel list the utilization
is a 0/0 float division in the source (NaN) and `detectBurstEvent` then
divides by zero and panics — `none`.  The source mutates the metrics fields
before the panic point; the panic kills the process, so the partial mutation
is never observable and the model returns `none` for the whole cycle. -/
def collectMetrics (cfg : ScalingConfig) (tunnels : List TunnelStatus)
    (m : TunnelMetrics) (now : Int) : Option TunnelMetrics :=
  let per := tunnels.map (fun t => parseThroughput t.txBytes t.rxBytes)
  let total : Int := per.foldl (· + ·) 0
  let elephant : Int := ((per.filter (fun x => x > cfg.elephantFlowThreshold)).length : Int)
  let maxThroughput : Int := (tunnels.length : Int) * 1500 * 1024 * 1024
  let utilization : ℚ := (total : ℚ) / (maxThroughput : ℚ)
  match detectBurstEvent total (tunnels.length : Int) with
  | none => none
  | some isBurst =>
      let m1 : TunnelMetrics :=
        { m with
          totalThroughput := total
          perTunnelThroughput := per
          utilizationPct := utilization
          elephantFlows := elephant }
      if isBurst then
        let withEvent := m1.burstHistory ++
          [{ timestamp := now, peakThroughput := total, tunnelCount := (tunnels.length : Int) }]
        let cutoff := now - cfg.burstDetectionWindow
        some { m1 with burstHistory := withEvent.filter (fun b => cutoff < b.timestamp) }
      else
        some m1

/-- `GravitonInstanceConfig` (dynamic-scaling.go lines 66–73). -/
structure GravitonInstanceConfig where
  instanceType : String
  baselineBandwidth : Int
  burstBandwidth : Int
  burstCredits : Int
  monthlyCost : ℚ
  maxTunnels : Int

/-- The six-tier catalog of `GetOptimalGravitonInstance` (dynamic-scaling.go
lines 103–152), in source order. -/
def gravitonInstances : List GravitonInstanceConfig :=
  [{ instanceType := "t4g.nano", baselineBandwidth := 32, burstBandwidth := 5000,
     burstCredits := 15, monthlyCost := ratQ 131 100 (by norm_num), maxTunnels := 1 },
   { instanceType := "t4g.micro", baselineBandwidth := 62, burstBandwidth := 5000,
     burstCredits := 30, monthlyCost := ratQ 263 100 (by norm_num), maxTunnels := 2 },
   { instanceType := "t4g.small", baselineBandwidth := 125, burstBandwidth := 5000,
     burstCredits := 60, monthlyCost := ratQ 263 50 (by norm_num), maxTunnels := 4 },
   { instanceType := "c6gn.medium", baselineBandwidth := 3125, burstBandwidth := 12500,
     burstCredits := 0, monthlyCost := ratQ 27 1 (by norm_num), maxTunnels := 6 },
   { instanceType := "c6gn.large", baselineBandwidth := 6250, burstBandwidth := 25000,
     burstCredits := 0, monthlyCost := ratQ 54 1 (by norm_num), maxTunnels := 8 },
   { instanceType := "c6gn.xlarge", baselineBandwidth := 12500, burstBandwidth := 25000,
     burstCredits := 0, monthlyCost := ratQ 108 1 (by norm_num), maxTunnels := 12 }]

/-- The bytes/s → Mbps conversion `targetThroughput * 8 / 1024 / 1024`
(dynamic-scaling.go line 157), with Go truncating division. -/
def targetMbps (throughput : Int) : Int :=
  Int.tdiv (Int.tdiv (throughput * 8) 1024) 1024

/-- The scan loop shared by both tier-selection functions: a single pass in
catalog order, returning the first tier whose baseline meets the target
within budget, or — in the same iteration — whose burst meets the target
within budget. -/
def selectLoop (mbps : Int) (budget : ℚ) : List GravitonInstanceConfig →
    Option GravitonInstanceConfig
  | [] => none
  | i :: rest =>
      if i.baselineBandwidth ≥ mbps ∧ i.monthlyCost ≤ budget then some i
      else if i.burstBandwidth ≥ mbps ∧ i.monthlyCost ≤ budget then some i
      else selectLoop mbps budget rest

/-- The fallback tier `instances[0]` (t4g.nano). -/
def gravitonFallback : GravitonInstanceConfig :=
  { instanceType := "", baselineBandwidth := 0, burstBandwidth := 0,
    burstCredits := 0, monthlyCost := 0, maxTunnels := 0 }

/-- `GetOptimalGravitonInstance` (dynamic-scaling.go lines 102–175): scan the
catalog once; if no tier qualifies, return the first (cheapest) tier. -/
def getOptimalGravitonInstance (targetThroughput : Int) (budget : ℚ) :
    GravitonInstanceConfig :=
  match selectLoop (targetMbps targetThroughput) budget gravitonInstances with
  | some i => i
  | none => gravitonInstances.getD 0 gravitonFallback

end Scaling

/-! ## Instance selection of the aws package (`internal/aws/client.go`) -/

namespace Aws

/-- `InstanceConfig` (client.go lines 324–330). -/
structure InstanceConfig where
  instanceType : String
  baselineBandwidth : Int
  burstBandwidth : Int
  monthlyCost : ℚ
  maxTunnels : Int

/-- The five-tier catalog of `SelectOptimalInstance` (client.go lines
376–412), in source order. -/
def awsInstances : List InstanceConfig :=
  [{ instanceType := "t4g.nano", baselineBandwidth := 32, burstBandwidth := 5000,
     monthlyCost := ratQ 131 100 (by norm_num), maxTunnels := 1 },
   { instanceType := "t4g.micro", baselineBandwidth := 62, burstBandwidth := 5000,
     monthlyCost := ratQ 263 100 (by norm_num), maxTunnels := 2 },
   { instanceType := "t4g.small", baselineBandwidth := 125, burstBandwidth := 5000,
     monthlyCost := ratQ 263 50 (by norm_num), maxTunnels := 4 },
   { instanceType := "c6gn.medium", baselineBandwidth := 3125, burstBandwidth := 12500,
     monthlyCost := ratQ 27 1 (by norm_num), maxTunnels := 6 },
   { instanceType := "c6gn.large", baselineBandwidth := 6250, burstBandwidth := 25000,
     monthlyCost := ratQ 54 1 (by norm_num), maxTunnels := 8 }]

/-- The scan loop of `SelectOptimalInstance` (client.go lines 418–427): same
single-pass baseline-then-burst check as the Graviton variant. -/
def selectLoop (mbps : Int) (budget : ℚ) : List InstanceConfig → Option InstanceConfig
  | [] => none
  | i :: rest =>
      if i.baselineBandwidth ≥ mbps ∧ i.monthlyCost ≤ budget then some i
      else if i.burstBandwidth ≥ mbps ∧ i.monthlyCost ≤ budget then some i
      else selectLoop mbps budget rest

/-- The fallback value for `instances[0]`. -/
def awsFallback : InstanceConfig :=
  { instanceType := "", baselineBandwidth := 0, burstBandwidth := 0,
    monthlyCost := 0, maxTunnels := 0 }

/-- `SelectOptimalInstance` (client.go lines 375–431): convert the byte/s
target to Mbps with truncating division, scan the catalog once, and fall
back to the first (cheapest) tier. -/
def selectOptimalInstance (throughput : Int) (budget : ℚ) : InstanceConfig :=
  match selectLoop (Int.tdiv (Int.tdiv (throughput * 8) 1024) 1024) budget awsInstances with
  | some i => i
  | none => awsInstances.getD 0 awsFallback

end Aws

/-! ## Derived predicates and concrete fixtures used by the claim theorems -/

namespace Tunnel

/-- The manager invariant of the specification: configured bounds `a ≤ b`,
contiguous ids, and `a ≤ N ≤ b`. -/
def managerInv (a b : Int) (s : ManagerState) : Prop :=
  s.config.minTunnels = a ∧ s.config.maxTunnels = b ∧ contiguous s ∧
  a ≤ (mapLen s.tunnels : Int) ∧ (mapLen s.tunnels : Int) ≤ b

/-- The tunnel record that `createTunnel` produces for id `j` when the
driver succeeds, with keys drawn from random-stream position `j`. -/
def expectedTunnel (env : ManagerEnv) (cfg : TunnelConfig) (j : Nat) : WireGuardTunnel :=
  { id := (j : Int)
    interface := "wg" ++ toString (j : Int)
    privateKey := base64Encode (env.randBytes j)
    publicKey := base64Encode (env.curve (env.randBytes j))
    endpointIP := calculateTunnelIP (j : Int)
    port := cfg.listenPort + (j : Int)
    state := "active" }

/-- The map entries created by a fully successful run of the creation loop
for ids `i, …, i+k−1` (most recent insertion first). -/
def expectedEntries (env : ManagerEnv) (cfg : TunnelConfig) (i k : Nat) :
    List (Int × WireGuardTunnel) :=
  ((List.range' i k).reverse).map (fun (j : Nat) => ((j : Int), expectedTunnel env cfg j))

end Tunnel

/-- A manager environment in which every driver call succeeds; key material
is irrelevant to the claims that use it. -/
def allOkEnv : Tunnel.ManagerEnv :=
  { randBytes := fun _ => [], curve := fun l => l,
    bringUpOk := fun _ => true, bringDownOk := fun _ => true }

/-- A manager environment whose driver brings up only the first `k` tunnels
and fails from call `k` on. -/
def envUpOkBelow (k : Nat) : Tunnel.ManagerEnv :=
  { randBytes := fun _ => [], curve := fun l => l,
    bringUpOk := fun j => decide (j < k), bringDownOk := fun _ => true }

/-- A manager configured with `min_tunnels = 2`, `max_tunnels = 3`. -/
def cfgMin2 : Tunnel.TunnelConfig :=
  { minTunnels := 2, maxTunnels := 3, baseCIDR := "10.100.0.0/16", mtu := 1420, listenPort := 51820 }

/-- The default manager configuration of `NewTunnelManager`. -/
def cfgStd : Tunnel.TunnelConfig :=
  { minTunnels := 1, maxTunnels := 8, baseCIDR := "10.100.0.0/16", mtu := 1420, listenPort := 51820 }

/-- A manager configured with a base CIDR other than the default. -/
def cfgAltCIDR : Tunnel.TunnelConfig :=
  { minTunnels := 1, maxTunnels := 8, baseCIDR := "192.168.0.0/16", mtu := 1420, listenPort := 51820 }

/-- Ten concrete 32-byte private keys for the key-generation witness. -/
def wBytes (i : Fin 10) : List Nat := List.replicate 32 (i : Nat)

/-- A concrete stand-in for the curve25519 base-point multiplication in the
key-generation witness: value-shifts each byte, so public raw bytes differ
from every private raw byte vector. -/
def wCurve (l : List Nat) : List Nat := l.map (fun x => x + 16)

/-- A scaling configuration with up-cooldown 10 and down-cooldown 2 time
units, thresholds 0.8 / 0.3. -/
def cfgScale : Scaling.ScalingConfig :=
  { minTunnels := 1, maxTunnels := 8,
    scaleUpThreshold := ratQ 4 5 (by norm_num), scaleDownThreshold := ratQ 3 10 (by norm_num),
    scaleInterval := 30, scaleUpCooldown := 10, scaleDownCooldown := 2,
    elephantFlowThreshold := 104857600, burstDetectionWindow := 300 }

/-- Metrics of a two-tunnel controller at utilization 0.2, whose last scaling
action — a scale-up — happened at time 0. -/
def mLow : Scaling.TunnelMetrics :=
  { totalThroughput := 0, perTunnelThroughput := [0, 0], utilizationPct := ratQ 1 5 (by norm_num),
    elephantFlows := 0, lastScaleAction := 0, burstHistory := [] }

/-- A probe environment in which the local interface is introspectable but
every ping-based sub-test (path-MTU verification and latency measurement)
fails. -/
def failingProbeEnv : Network.ProbeEnv :=
  { defaultInterface := Except.ok
      { name := "eth0", speed := 10000000000, mtu := 1500, driver := "mlx5",
        offloading := [], queueCount := 8 },
    pathMTUOk := fun _ _ => false,
    latency := fun _ => Except.error "ping failed" }


/-- A manager environment with per-invocation distinct random bytes: the
k-th key generation reads the byte vector `k mod 256` followed by 31 zero
bytes. -/
def keyedEnv : Tunnel.ManagerEnv :=
  { randBytes := fun k => k % 256 :: List.replicate 31 0, curve := fun l => l,
    bringUpOk := fun _ => true, bringDownOk := fun _ => true }

/-! ## Claim theorems -/

/-- C2: for every link speed `L > 0`, baseline `B > 0` and burst `P ≥ 0`, the
bottleneck classifier returns `internet` iff `B < L/10`; `campus` iff
`L/10 ≤ B < L/2`; the cloud-side label iff `B ≥ L/2` and `P/B < 2`; and
`local` otherwise.  Divisions are the Go truncating integer divisions of the
source, and the source spells the cloud label `"aws"`. -/
theorem C2_bottleneck_classifier (L B P : Int) (hL : 0 < L) (_hB : 0 < B) (_hP : 0 ≤ P) :
    (Network.identifyBottlenecks L B P = "internet" ↔ B < Int.tdiv L 10) ∧
    (Network.identifyBottlenecks L B P = "campus" ↔ Int.tdiv L 10 ≤ B ∧ B < Int.tdiv L 2) ∧
    (Network.identifyBottlenecks L B P = "aws" ↔ Int.tdiv L 2 ≤ B ∧ Int.tdiv P B < 2) ∧
    (Network.identifyBottlenecks L B P = "local" ↔ Int.tdiv L 2 ≤ B ∧ 2 ≤ Int.tdiv P B) := by
  have d1 : ("internet" : String) ≠ "campus" := by decide
  have d2 : ("internet" : String) ≠ "aws" := by decide
  have d3 : ("internet" : String) ≠ "local" := by decide
  have d4 : ("campus" : String) ≠ "aws" := by decide
  have d5 : ("campus" : String) ≠ "local" := by decide
  have d6 : ("aws" : String) ≠ "local" := by decide
  have e10 : Int.tdiv L 10 = L / 10 := Int.tdiv_eq_ediv hL.le (by omega)
  have e2 : Int.tdiv L 2 = L / 2 := Int.tdiv_eq_ediv hL.le (by omega)
  unfold Network.identifyBottlenecks
  rw [e10, e2]
  split_ifs with h1 h2 h3 <;>
    refine ⟨?_, ?_, ?_, ?_⟩ <;>
    simp_all <;> omega

/-- C2 witness: the specification example `L = 10 Gbps, B = 5 Gbps,
P = 6 Gbps` classifies as the cloud-side bottleneck (spelled `"aws"`). -/
theorem C2_bottleneck_classifier_witness :
    Network.identifyBottlenecks 10000000000 5000000000 6000000000 = "aws" :=
  ((C2_bottleneck_classifier 10000000000 5000000000 6000000000
    (by decide) (by decide) (by decide)).2.2.1).mpr (by decide)

/-- The Graviton tier-selection loop is a first-match scan for a tier whose
baseline or burst bandwidth covers the target within budget. -/
theorem selectLoop_eq_find_graviton (mbps : Int) (budget : ℚ) :
    ∀ l : List Scaling.GravitonInstanceConfig,
      Scaling.selectLoop mbps budget l =
        l.find? (fun i =>
          decide ((mbps ≤ i.baselineBandwidth ∨ mbps ≤ i.burstBandwidth) ∧ i.monthlyCost ≤ budget))
  | [] => rfl
  | i :: rest => by
      unfold Scaling.selectLoop
      by_cases h1 : i.baselineBandwidth ≥ mbps ∧ i.monthlyCost ≤ budget
      · rw [if_pos h1, List.find?_cons_of_pos]
        simp [h1.1, h1.2]
      · rw [if_neg h1]
        by_cases h2 : i.burstBandwidth ≥ mbps ∧ i.monthlyCost ≤ budget
        · rw [if_pos h2, List.find?_cons_of_pos]
          simp [h2.1, h2.2]
        · rw [if_neg h2, List.find?_cons_of_neg, selectLoop_eq_find_graviton mbps budget rest]
          simp only [decide_eq_true_eq]
          tauto

/-- The aws-package tier-selection loop is the same first-match scan. -/
theorem selectLoop_eq_find_aws (mbps : Int) (budget : ℚ) :
    ∀ l : List Aws.InstanceConfig,
      Aws.selectLoop mbps budget l =
        l.find? (fun i =>
          decide ((mbps ≤ i.baselineBandwidth ∨ mbps ≤ i.burstBandwidth) ∧ i.monthlyCost ≤ budget))
  | [] => rfl
  | i :: rest => by
      unfold Aws.selectLoop
      by_cases h1 : i.baselineBandwidth ≥ mbps ∧ i.monthlyCost ≤ budget
      · rw [if_pos h1, List.find?_cons_of_pos]
        simp [h1.1, h1.2]
      · rw [if_neg h1]
        by_cases h2 : i.burstBandwidth ≥ mbps ∧ i.monthlyCost ≤ budget
        · rw [if_pos h2, List.find?_cons_of_pos]
          simp [h2.1, h2.2]
        · rw [if_neg h2, List.find?_cons_of_neg, selectLoop_eq_find_aws mbps budget rest]
          simp only [decide_eq_true_eq]
          tauto

/-- C3 counterexample: at target 500 Mbps (65 536 000 bytes/s) and budget
$30, both tier-selection functions return `t4g.nano`, not `c6gn.medium` as
the claim states: the burst check sits inside the same loop iteration as the
baseline check, so `t4g.nano` qualifies through its 5000 Mbps burst. -/
theorem C3_tier_selection_counterexample :
    (Aws.selectOptimalInstance 65536000 (ratQ 30 1 (by norm_num))).instanceType = "t4g.nano" ∧
    (Scaling.getOptimalGravitonInstance 65536000 (ratQ 30 1 (by norm_num))).instanceType = "t4g.nano" ∧
    (Aws.selectOptimalInstance 65536000 (ratQ 30 1 (by norm_num))).instanceType ≠ "c6gn.medium" := by
  decide

/-- C3 amended: instance tier selection scans the catalog once in ascending
order and returns the first tier whose baseline OR burst bandwidth covers the
target and whose monthly cost is within the budget; if no tier qualifies it
returns the first (cheapest) tier.  For target 500 Mbps and budget $30 this
yields `t4g.nano` (burst 5000 ≥ 500, $1.31 ≤ $30). -/
theorem C3_tier_selection_amended :
    (∀ (t : Int) (b : ℚ),
       Scaling.getOptimalGravitonInstance t b =
         (Scaling.gravitonInstances.find? (fun i =>
             decide ((Scaling.targetMbps t ≤ i.baselineBandwidth ∨
                      Scaling.targetMbps t ≤ i.burstBandwidth) ∧ i.monthlyCost ≤ b))).getD
           (Scaling.gravitonInstances.getD 0 Scaling.gravitonFallback)) ∧
    (∀ (t : Int) (b : ℚ),
       Aws.selectOptimalInstance t b =
         (Aws.awsInstances.find? (fun i =>
             decide ((Int.tdiv (Int.tdiv (t * 8) 1024) 1024 ≤ i.baselineBandwidth ∨
                      Int.tdiv (Int.tdiv (t * 8) 1024) 1024 ≤ i.burstBandwidth) ∧
                     i.monthlyCost ≤ b))).getD
           (Aws.awsInstances.getD 0 Aws.awsFallback)) ∧
    (Scaling.getOptimalGravitonInstance 65536000 (ratQ 30 1 (by norm_num))).instanceType
      = "t4g.nano" ∧
    (Aws.selectOptimalInstance 65536000 (ratQ 30 1 (by norm_num))).instanceType = "t4g.nano" := by
  refine ⟨?_, ?_, by decide, by decide⟩
  · intro t b
    unfold Scaling.getOptimalGravitonInstance
    rw [selectLoop_eq_find_graviton]
    cases Scaling.gravitonInstances.find? (fun i =>
      decide ((Scaling.targetMbps t ≤ i.baselineBandwidth ∨
               Scaling.targetMbps t ≤ i.burstBandwidth) ∧ i.monthlyCost ≤ b)) <;> rfl
  · intro t b
    unfold Aws.selectOptimalInstance
    rw [selectLoop_eq_find_aws]
    cases Aws.awsInstances.find? (fun i =>
      decide ((Int.tdiv (Int.tdiv (t * 8) 1024) 1024 ≤ i.baselineBandwidth ∨
               Int.tdiv (Int.tdiv (t * 8) 1024) 1024 ≤ i.burstBandwidth) ∧
              i.monthlyCost ≤ b)) <;> rfl

/-- C10: with an empty active-tunnel list the metrics-collection cycle hits
the unguarded integer division by the tunnel count in burst detection —
a division by zero, i.e. a Go runtime panic (`none`).  The claim that the
division is guarded is exactly what the source lacks. -/
theorem C10_collect_metrics_division_by_zero :
    ∀ (cfg : Scaling.ScalingConfig) (m : Scaling.TunnelMetrics) (now : Int),
      Scaling.collectMetrics cfg [] m now = none ∧ Scaling.detectBurstEvent 0 0 = none := by
  intro cfg m now
  exact ⟨rfl, rfl⟩

/-- C7 amended: the controller records a single `LastScaleAction` timestamp
shared by both directions; `executeScaling` overwrites it on every action,
so a scale-down does restart the up-cooldown: no scale-up (and symmetrically
no scale-down) is decided while `now − lastScaleAction` is within the
respective cooldown, measured from the last action of either direction. -/
theorem C7_cooldowns_amended (cfg : Scaling.ScalingConfig) (m : Scaling.TunnelMetrics) (now : Int) :
    (now - m.lastScaleAction < cfg.scaleUpCooldown →
      (Scaling.evaluateScaling cfg m now).action ≠ "scale_up") ∧
    (now - m.lastScaleAction < cfg.scaleDownCooldown →
      (Scaling.evaluateScaling cfg m now).action ≠ "scale_down") ∧
    (∀ a : Scaling.ScalingAction,
      (Scaling.executeScalingRecord m a).lastScaleAction = a.timestamp) := by
  have lit : ∀ (a : String) (t : Int) (r : String) (ts : Int) (b : String), a ≠ b →
      ({ action := a, targetCount := t, reason := r, timestamp := ts } :
        Scaling.ScalingAction).action ≠ b := fun _ _ _ _ _ hne => hne
  refine ⟨?_, ?_, fun a => rfl⟩
  · intro hcd
    unfold Scaling.evaluateScaling
    split_ifs with h1 h2 h3 h4
    · exact absurd hcd h1.2.2
    · exact absurd hcd h2.2.2
    · exact lit _ _ _ _ _ (by decide)
    · exact absurd hcd h4.2.2
    · exact lit _ _ _ _ _ (by decide)
  · intro hcd
    unfold Scaling.evaluateScaling
    split_ifs with h1 h2 h3 h4
    · exact lit _ _ _ _ _ (by decide)
    · exact lit _ _ _ _ _ (by decide)
    · exact absurd hcd h3.2.2
    · exact lit _ _ _ _ _ (by decide)
    · exact lit _ _ _ _ _ (by decide)

/-- C7 amended witness: with the last action at time 0 and an up-cooldown of
10, the decision at time 3 is not a scale-up. -/
theorem C7_cooldowns_amended_witness :
    (Scaling.evaluateScaling cfgScale mLow 3).action ≠ "scale_up" :=
  (C7_cooldowns_amended cfgScale mLow 3).1 (by decide)

/-- C7 counterexample: a scale-up happens at time 0 (`mLow.lastScaleAction`);
at time 3 the controller decides a scale-down, which overwrites the shared
timestamp; at time 12 — although 12 − 0 exceeds the up-cooldown 10, the
utilization 0.9 exceeds the 0.8 threshold, and 2 < max tunnels — the
decision is `no_action`, because the scale-down restarted the up-cooldown.
Under the claim, the scale-up would have to be permitted. -/
theorem C7_cooldowns_counterexample :
    (Scaling.evaluateScaling cfgScale mLow 3).action = "scale_down" ∧
    (Scaling.evaluateScaling cfgScale
      { Scaling.executeScalingRecord mLow (Scaling.evaluateScaling cfgScale mLow 3) with
        utilizationPct := ratQ 9 10 (by norm_num) } 12).action = "no_action" ∧
    cfgScale.scaleUpCooldown ≤ 12 - mLow.lastScaleAction ∧
    cfgScale.scaleUpThreshold < ratQ 9 10 (by norm_num) ∧
    (2 : Int) < cfgScale.maxTunnels := by
  decide

/-! ### Line disequalities for the configuration rendering (C8) -/

theorem wgNe_M_I (s : String) : "MTU = " ++ s ≠ "[Interface]" := by
  intro h
  have h2 := congrArg String.data h
  simp only [String.data_append] at h2
  simp at h2

theorem wgNe_M_U1 (s : String) : "MTU = " ++ s ≠ "PostUp = ip route add 0.0.0.0/0 dev %i table 200" := by
  intro h
  have h2 := congrArg String.data h
  simp only [String.data_append] at h2
  simp at h2

theorem wgNe_M_U2 (s : String) : "MTU = " ++ s ≠ "PostUp = ip rule add from %s table 200" := by
  intro h
  have h2 := congrArg String.data h
  simp only [String.data_append] at h2
  simp at h2

theorem wgNe_M_D1 (s : String) : "MTU = " ++ s ≠ "PostDown = ip route del 0.0.0.0/0 dev %i table 200" := by
  intro h
  have h2 := congrArg String.data h
  simp only [String.data_append] at h2
  simp at h2

theorem wgNe_M_D2 (s : String) : "MTU = " ++ s ≠ "PostDown = ip rule del from %s table 200" := by
  intro h
  have h2 := congrArg String.data h
  simp only [String.data_append] at h2
  simp at h2

theorem wgNe_M_E (s : String) : "MTU = " ++ s ≠ "" := by
  intro h
  have h2 := congrArg String.data h
  simp only [String.data_append] at h2
  simp at h2

theorem wgNe_M_P (s : String) : "MTU = " ++ s ≠ "[Peer]" := by
  intro h
  have h2 := congrArg String.data h
  simp only [String.data_append] at h2
  simp at h2

theorem wgNe_M_K (s : String) : "MTU = " ++ s ≠ "PersistentKeepalive = 25" := by
  intro h
  have h2 := congrArg String.data h
  simp only [String.data_append] at h2
  simp at h2

theorem wgNe_M_pk (s t : String) : "MTU = " ++ s ≠ "PrivateKey = " ++ t := by
  intro h
  have h2 := congrArg String.data h
  simp only [String.data_append] at h2
  simp at h2

theorem wgNe_M_ad (s t : String) : "MTU = " ++ s ≠ "Address = " ++ t := by
  intro h
  have h2 := congrArg String.data h
  simp only [String.data_append] at h2
  simp at h2

theorem wgNe_M_lp (s t : String) : "MTU = " ++ s ≠ "ListenPort = " ++ t := by
  intro h
  have h2 := congrArg String.data h
  simp only [String.data_append] at h2
  simp at h2

theorem wgNe_M_pub (s t : String) : "MTU = " ++ s ≠ "PublicKey = " ++ t := by
  intro h
  have h2 := congrArg String.data h
  simp only [String.data_append] at h2
  simp at h2

theorem wgNe_M_ep (s t : String) : "MTU = " ++ s ≠ "Endpoint = " ++ t := by
  intro h
  have h2 := congrArg String.data h
  simp only [String.data_append] at h2
  simp at h2

theorem wgNe_M_ai (s t : String) : "MTU = " ++ s ≠ "AllowedIPs = " ++ t := by
  intro h
  have h2 := congrArg String.data h
  simp only [String.data_append] at h2
  simp at h2

theorem wgNe_P_I : "[Peer]" ≠ "[Interface]" := by
  intro h
  have h2 := congrArg String.data h
  simp only [String.data_append] at h2
  simp at h2

theorem wgNe_P_U1 : "[Peer]" ≠ "PostUp = ip route add 0.0.0.0/0 dev %i table 200" := by
  intro h
  have h2 := congrArg String.data h
  simp only [String.data_append] at h2
  simp at h2

theorem wgNe_P_U2 : "[Peer]" ≠ "PostUp = ip rule add from %s table 200" := by
  intro h
  have h2 := congrArg String.data h
  simp only [String.data_append] at h2
  simp at h2

theorem wgNe_P_D1 : "[Peer]" ≠ "PostDown = ip route del 0.0.0.0/0 dev %i table 200" := by
  intro h
  have h2 := congrArg String.data h
  simp only [String.data_append] at h2
  simp at h2

theorem wgNe_P_D2 : "[Peer]" ≠ "PostDown = ip rule del from %s table 200" := by
  intro h
  have h2 := congrArg String.data h
  simp only [String.data_append] at h2
  simp at h2

theorem wgNe_P_pk (t : String) : "[Peer]" ≠ "PrivateKey = " ++ t := by
  intro h
  have h2 := congrArg String.data h
  simp only [String.data_append] at h2
  simp at h2

theorem wgNe_P_ad (t : String) : "[Peer]" ≠ "Address = " ++ t := by
  intro h
  have h2 := congrArg String.data h
  simp only [String.data_append] at h2
  simp at h2

theorem wgNe_P_lp (t : String) : "[Peer]" ≠ "ListenPort = " ++ t := by
  intro h
  have h2 := congrArg String.data h
  simp only [String.data_append] at h2
  simp at h2

theorem wgNe_P_mtu (t : String) : "[Peer]" ≠ "MTU = " ++ t := by
  intro h
  have h2 := congrArg String.data h
  simp only [String.data_append] at h2
  simp at h2

theorem wgNe_K_I : "PersistentKeepalive = 25" ≠ "[Interface]" := by
  intro h
  have h2 := congrArg String.data h
  simp only [String.data_append] at h2
  simp at h2

theorem wgNe_K_U1 : "PersistentKeepalive = 25" ≠ "PostUp = ip route add 0.0.0.0/0 dev %i table 200" := by
  intro h
  have h2 := congrArg String.data h
  simp only [String.data_append] at h2
  simp at h2

theorem wgNe_K_U2 : "PersistentKeepalive = 25" ≠ "PostUp = ip rule add from %s table 200" := by
  intro h
  have h2 := congrArg String.data h
  simp only [String.data_append] at h2
  simp at h2

theorem wgNe_K_D1 : "PersistentKeepalive = 25" ≠ "PostDown = ip route del 0.0.0.0/0 dev %i table 200" := by
  intro h
  have h2 := congrArg String.data h
  simp only [String.data_append] at h2
  simp at h2

theorem wgNe_K_D2 : "PersistentKeepalive = 25" ≠ "PostDown = ip rule del from %s table 200" := by
  intro h
  have h2 := congrArg String.data h
  simp only [String.data_append] at h2
  simp at h2

theorem wgNe_K_pk (t : String) : "PersistentKeepalive = 25" ≠ "PrivateKey = " ++ t := by
  intro h
  have h2 := congrArg String.data h
  simp only [String.data_append] at h2
  simp at h2

theorem wgNe_K_ad (t : String) : "PersistentKeepalive = 25" ≠ "Address = " ++ t := by
  intro h
  have h2 := congrArg String.data h
  simp only [String.data_append] at h2
  simp at h2

theorem wgNe_K_lp (t : String) : "PersistentKeepalive = 25" ≠ "ListenPort = " ++ t := by
  intro h
  have h2 := congrArg String.data h
  simp only [String.data_append] at h2
  simp at h2

theorem wgNe_K_mtu (t : String) : "PersistentKeepalive = 25" ≠ "MTU = " ++ t := by
  intro h
  have h2 := congrArg String.data h
  simp only [String.data_append] at h2
  simp at h2

/-- C8: for every configuration record, rendering the tunnel configuration,
writing it to disk and reading it back yields exactly the rendered text; the
lines contain the `[Interface]` section with PrivateKey, Address and
ListenPort derived from the record, an MTU line iff `mtu > 0`, at least one
PostUp and one PostDown rule, and a `[Peer]` section (with
`PersistentKeepalive = 25`) iff the peer public key is non-empty. -/
theorem C8_config_roundtrip (fs : Tunnel.FileSys) (c : Tunnel.WireGuardConfig) :
    Tunnel.readFile (Tunnel.createWireGuardInterfaceFS fs c) (Tunnel.configFilePath c)
      = some (Tunnel.generateWireGuardConfig c) ∧
    "[Interface]" ∈ Tunnel.wgConfigLines c ∧
    "PrivateKey = " ++ c.privateKey ∈ Tunnel.wgConfigLines c ∧
    "Address = " ++ c.address ∈ Tunnel.wgConfigLines c ∧
    "ListenPort = " ++ toString c.listenPort ∈ Tunnel.wgConfigLines c ∧
    ("MTU = " ++ toString c.mtu ∈ Tunnel.wgConfigLines c ↔ 0 < c.mtu) ∧
    "PostUp = ip route add 0.0.0.0/0 dev %i table 200" ∈ Tunnel.wgConfigLines c ∧
    "PostDown = ip route del 0.0.0.0/0 dev %i table 200" ∈ Tunnel.wgConfigLines c ∧
    ("[Peer]" ∈ Tunnel.wgConfigLines c ↔ c.peerPublicKey ≠ "") ∧
    ("PersistentKeepalive = 25" ∈ Tunnel.wgConfigLines c ↔ c.peerPublicKey ≠ "") := by
  refine ⟨by simp [Tunnel.readFile, Tunnel.writeFile, Tunnel.createWireGuardInterfaceFS],
          by simp [Tunnel.wgConfigLines], by simp [Tunnel.wgConfigLines],
          by simp [Tunnel.wgConfigLines], by simp [Tunnel.wgConfigLines],
          ?_,
          by simp [Tunnel.wgConfigLines], by simp [Tunnel.wgConfigLines],
          ?_, ?_⟩
  · by_cases hm : 0 < c.mtu
    · simp [Tunnel.wgConfigLines, hm]
    · simp only [Tunnel.wgConfigLines, hm, if_false]
      by_cases hp : c.peerPublicKey = "" <;> by_cases he : c.peerEndpoint = "" <;>
        by_cases ha : c.allowedIPs = "" <;>
        simp [hp, he, ha, hm, wgNe_M_I, wgNe_M_U1, wgNe_M_U2, wgNe_M_D1, wgNe_M_D2,
              wgNe_M_E, wgNe_M_P, wgNe_M_K, wgNe_M_pk, wgNe_M_ad, wgNe_M_lp,
              wgNe_M_pub, wgNe_M_ep, wgNe_M_ai]
  · by_cases hp : c.peerPublicKey = ""
    · by_cases hm : 0 < c.mtu <;>
        simp [Tunnel.wgConfigLines, hp, hm, wgNe_P_I, wgNe_P_U1, wgNe_P_U2, wgNe_P_D1,
              wgNe_P_D2, wgNe_P_pk, wgNe_P_ad, wgNe_P_lp, wgNe_P_mtu]
    · simp [Tunnel.wgConfigLines, hp]
  · by_cases hp : c.peerPublicKey = ""
    · by_cases hm : 0 < c.mtu <;>
        simp [Tunnel.wgConfigLines, hp, hm, wgNe_K_I, wgNe_K_U1, wgNe_K_U2, wgNe_K_D1,
              wgNe_K_D2, wgNe_K_pk, wgNe_K_ad, wgNe_K_lp, wgNe_K_mtu]
    · simp [Tunnel.wgConfigLines, hp]

/-! ### Base64 facts for key generation (C9) -/

theorem b64idx_sextetChar_fin : ∀ n : Fin 64, b64idx (sextetChar n.val) = n.val := by decide

theorem b64idx_sextetChar (n : Nat) (h : n < 64) : b64idx (sextetChar n) = n :=
  b64idx_sextetChar_fin ⟨n, h⟩

theorem sextetChar_ne_eq_fin : ∀ n : Fin 64, sextetChar n.val ≠ '=' := by decide

theorem sextetChar_ne_eq (n : Nat) (h : n < 64) : sextetChar n ≠ '=' :=
  sextetChar_ne_eq_fin ⟨n, h⟩

/-- Decoding inverts encoding on byte lists. -/
theorem decB64_encB64 : ∀ l : List Nat, (∀ x ∈ l, x < 256) → decB64 (encB64 l) = l := by
  intro l
  induction l using encB64.induct with
  | case1 => intro _; rfl
  | case2 a =>
      intro h
      have ha : a < 256 := h a (by simp)
      have e0 := b64idx_sextetChar (a / 4) (by omega)
      have e1 := b64idx_sextetChar (a % 4 * 16) (by omega)
      simp [encB64, decB64, e0, e1]
      omega
  | case3 a b =>
      intro h
      have ha : a < 256 := h a (by simp)
      have hb : b < 256 := h b (by simp)
      have h2 : sextetChar (b % 16 * 4) ≠ '=' := sextetChar_ne_eq _ (by omega)
      have e0 := b64idx_sextetChar (a / 4) (by omega)
      have e1 := b64idx_sextetChar (a % 4 * 16 + b / 16) (by omega)
      have e2 := b64idx_sextetChar (b % 16 * 4) (by omega)
      simp [encB64, decB64, h2, e0, e1, e2]
      omega
  | case4 a b c rest ih =>
      intro h
      have ha : a < 256 := h a (by simp)
      have hb : b < 256 := h b (by simp)
      have hc : c < 256 := h c (by simp)
      have h2 : sextetChar (b % 16 * 4 + c / 64) ≠ '=' := sextetChar_ne_eq _ (by omega)
      have h3 : sextetChar (c % 64) ≠ '=' := sextetChar_ne_eq _ (by omega)
      have e0 := b64idx_sextetChar (a / 4) (by omega)
      have e1 := b64idx_sextetChar (a % 4 * 16 + b / 16) (by omega)
      have e2 := b64idx_sextetChar (b % 16 * 4 + c / 64) (by omega)
      have e3 := b64idx_sextetChar (c % 64) (by omega)
      have ih2 := ih (fun x hx => h x (by simp [hx]))
      simp [encB64, decB64, h2, h3, e0, e1, e2, e3, ih2]
      omega

/-- Encoding is injective on byte lists. -/
theorem encB64_inj {l1 l2 : List Nat} (h1 : ∀ x ∈ l1, x < 256) (h2 : ∀ x ∈ l2, x < 256)
    (he : encB64 l1 = encB64 l2) : l1 = l2 := by
  have r1 := decB64_encB64 l1 h1
  have r2 := decB64_encB64 l2 h2
  rw [he] at r1
  rw [r2] at r1
  exact r1.symm

/-- A list of `3n+2` bytes encodes to `4n+4` characters ending in `=`. -/
theorem encB64_len_last : ∀ (n : Nat) (l : List Nat), l.length = 3 * n + 2 →
    (encB64 l).length = 4 * n + 4 ∧ (encB64 l).getLast? = some '=' := by
  intro n
  induction n with
  | zero =>
      intro l hl
      match l, hl with
      | [a, b], _ => exact ⟨rfl, rfl⟩
  | succ n ih =>
      intro l hl
      match l, hl with
      | a :: b :: c :: rest, hl =>
          have hr : rest.length = 3 * n + 2 := by simp at hl; omega
          obtain ⟨ih1, ih2⟩ := ih rest hr
          have hne : encB64 rest ≠ [] := by
            intro hq
            rw [hq] at ih1
            simp at ih1
          constructor
          · simp [encB64, ih1]
            omega
          · obtain ⟨y, ys, hy⟩ : ∃ y ys, encB64 rest = y :: ys := by
              cases hq : encB64 rest with
              | nil => exact absurd hq hne
              | cons y ys => exact ⟨y, ys, rfl⟩
            simp [encB64, hy]
            rw [← hy, ih2]

/-- A 32-byte input encodes to exactly 44 characters ending in `=`. -/
theorem base64Encode_len_last (l : List Nat) (h : l.length = 32) :
    (base64Encode l).length = 44 ∧ (base64Encode l).data.getLast? = some '=' := by
  have := encB64_len_last 10 l (by omega)
  exact ⟨this.1, this.2⟩

/-- C9: key generation base64-encodes the 32 random private bytes and the
curve25519 scalar base multiplication of them; each encoding is exactly 44
characters ending in `=`; and for ten invocations whose underlying 20 raw
byte vectors are pairwise distinct (which a CSPRNG and the injectivity of
the curve map deliver with overwhelming probability), the 20 encoded key
strings are pairwise distinct. -/
theorem C9_keygen (curve : List Nat → List Nat) (bytes : Fin 10 → List Nat)
    (hlen : ∀ i, (bytes i).length = 32)
    (hval : ∀ i, ∀ x ∈ bytes i, x < 256)
    (hclen : ∀ i, (curve (bytes i)).length = 32)
    (hcval : ∀ i, ∀ x ∈ curve (bytes i), x < 256)
    (hdist : ∀ (i j : Fin 10) (b b' : Bool),
        cond b (bytes i) (curve (bytes i)) = cond b' (bytes j) (curve (bytes j)) →
        i = j ∧ b = b') :
    (∀ i : Fin 10,
      (Tunnel.generateWireGuardKeys curve (bytes i)).1.length = 44 ∧
      (Tunnel.generateWireGuardKeys curve (bytes i)).1.data.getLast? = some '=' ∧
      (Tunnel.generateWireGuardKeys curve (bytes i)).2.length = 44 ∧
      (Tunnel.generateWireGuardKeys curve (bytes i)).2.data.getLast? = some '=') ∧
    (∀ (i j : Fin 10) (b b' : Bool),
      cond b (Tunnel.generateWireGuardKeys curve (bytes i)).1
             (Tunnel.generateWireGuardKeys curve (bytes i)).2 =
      cond b' (Tunnel.generateWireGuardKeys curve (bytes j)).1
              (Tunnel.generateWireGuardKeys curve (bytes j)).2 →
      i = j ∧ b = b') := by
  constructor
  · intro i
    obtain ⟨p1, p2⟩ := base64Encode_len_last (bytes i) (hlen i)
    obtain ⟨q1, q2⟩ := base64Encode_len_last (curve (bytes i)) (hclen i)
    exact ⟨p1, p2, q1, q2⟩
  · intro i j b b' heq
    apply hdist i j b b'
    cases b <;> cases b'
    · exact encB64_inj (hcval i) (hcval j) (congrArg String.data heq)
    · exact encB64_inj (hcval i) (hval j) (congrArg String.data heq)
    · exact encB64_inj (hval i) (hcval j) (congrArg String.data heq)
    · exact encB64_inj (hval i) (hval j) (congrArg String.data heq)

/-- C9 witness: a concrete instantiation with ten distinct 32-byte vectors
and a byte-shifting stand-in for the curve map. -/
theorem C9_keygen_witness :
    (Tunnel.generateWireGuardKeys wCurve (wBytes 0)).1.length = 44 ∧
    (Tunnel.generateWireGuardKeys wCurve (wBytes 0)).1.data.getLast? = some '=' ∧
    (Tunnel.generateWireGuardKeys wCurve (wBytes 0)).2.length = 44 ∧
    (Tunnel.generateWireGuardKeys wCurve (wBytes 0)).2.data.getLast? = some '=' :=
  (C9_keygen wCurve wBytes (by decide) (by decide) (by decide) (by decide) (by decide)).1 0

namespace Tunnel

theorem filter_ne_eq_self (m : List (Int × WireGuardTunnel)) (k : Int)
    (h : ∀ p ∈ m, p.1 ≠ k) : m.filter (fun p => p.1 ≠ k) = m := by
  induction m with
  | nil => rfl
  | cons p rest ih =>
      rw [List.filter_cons_of_pos (by simp [h p (List.mem_cons_self p rest)])]
      rw [ih (fun q hq => h q (List.mem_cons_of_mem p hq))]

theorem mapLookup_isSome (m : List (Int × WireGuardTunnel)) (k : Int)
    (h : k ∈ mapKeys m) : ∃ v, mapLookup m k = some v := by
  induction m with
  | nil => simp [mapKeys] at h
  | cons p rest ih =>
      by_cases hp : p.1 = k
      · exact ⟨p.2, by simp [mapLookup, List.find?, hp]⟩
      · have : k ∈ mapKeys rest := by
          simp [mapKeys] at h ⊢
          rcases h with h | h
          · exact absurd h.symm hp
          · exact h
        obtain ⟨v, hv⟩ := ih this
        exact ⟨v, by simpa [mapLookup, List.find?, hp] using hv⟩

theorem length_filter_ne (m : List (Int × WireGuardTunnel)) (k : Int)
    (hnd : (mapKeys m).Nodup) (hmem : k ∈ mapKeys m) :
    (m.filter (fun p => p.1 ≠ k)).length + 1 = m.length := by
  induction m with
  | nil => simp [mapKeys] at hmem
  | cons p rest ih =>
      simp only [mapKeys, List.map_cons, List.nodup_cons] at hnd
      by_cases hp : p.1 = k
      · rw [List.filter_cons_of_neg (by simp [hp])]
        rw [filter_ne_eq_self rest k (fun q hq => by
          intro hqk
          exact hnd.1 (hp ▸ hqk ▸ List.mem_map_of_mem Prod.fst hq))]
        simp
      · have hkr : k ∈ mapKeys rest := by
          simp [mapKeys] at hmem ⊢
          rcases hmem with h | h
          · exact absurd h.symm hp
          · exact h
        rw [List.filter_cons_of_pos (by simp [hp])]
        simp only [List.length_cons]
        rw [← ih hnd.2 hkr]

theorem foldl_max_le (l : List Int) : ∀ (init b : Int), init ≤ b → (∀ x ∈ l, x ≤ b) →
    l.foldl max init ≤ b := by
  induction l with
  | nil => intro init b h _; simpa using h
  | cons x rest ih =>
      intro init b hi hall
      simp only [List.foldl_cons]
      exact ih _ _ (max_le hi (hall x (by simp))) (fun y hy => hall y (by simp [hy]))

theorem init_le_foldl_max (l : List Int) : ∀ init : Int, init ≤ l.foldl max init := by
  induction l with
  | nil => intro init; simp
  | cons y rest ih =>
      intro init
      simp only [List.foldl_cons]
      exact le_trans (le_max_left init y) (ih (max init y))

theorem le_foldl_max (l : List Int) : ∀ (init : Int) (x : Int), x ∈ l →
    x ≤ l.foldl max init := by
  induction l with
  | nil => intro _ x hx; simp at hx
  | cons y rest ih =>
      intro init x hx
      simp only [List.foldl_cons]
      rcases List.mem_cons.mp hx with h | h
      · subst h
        exact le_trans (le_max_right init x) (init_le_foldl_max rest (max init x))
      · exact ih _ _ h

end Tunnel

namespace Tunnel

theorem highestID_eq (s : ManagerState) (hc : contiguous s) (hpos : 0 < mapLen s.tunnels) :
    (mapKeys s.tunnels).foldl max 0 = (mapLen s.tunnels : Int) - 1 := by
  have hmem : ((mapLen s.tunnels : Int) - 1) ∈ mapKeys s.tunnels :=
    (hc.2 _).mpr ⟨by omega, by omega⟩
  have hub : (mapKeys s.tunnels).foldl max 0 ≤ (mapLen s.tunnels : Int) - 1 :=
    foldl_max_le _ 0 _ (by omega) (fun x hx => by have := (hc.2 x).mp hx; omega)
  have hlb := le_foldl_max (mapKeys s.tunnels) 0 _ hmem
  omega

theorem createTunnel_spec (env : ManagerEnv) (s : ManagerState) (id : Int) :
    (createTunnel env s id).1.config = s.config ∧
    ((createTunnel env s id).2 = true →
       (createTunnel env s id).1.tunnels = mapSet s.tunnels id
         { id := id
           interface := "wg" ++ toString id
           privateKey := base64Encode (env.randBytes s.rng)
           publicKey := base64Encode (env.curve (env.randBytes s.rng))
           endpointIP := calculateTunnelIP id
           port := s.config.listenPort + id
           state := "active" }) ∧
    ((createTunnel env s id).2 = false → (createTunnel env s id).1.tunnels = s.tunnels) := by
  by_cases h : env.bringUpOk s.drv = true
  · refine ⟨?_, ?_, ?_⟩ <;> simp [createTunnel, h]
  · simp only [Bool.not_eq_true] at h
    refine ⟨?_, ?_, ?_⟩ <;> simp [createTunnel, h]

theorem addTunnel_spec (env : ManagerEnv) (s : ManagerState) (hc : contiguous s) :
    (addTunnel env s).1.config = s.config ∧
    contiguous (addTunnel env s).1 ∧
    (mapLen (addTunnel env s).1.tunnels = mapLen s.tunnels ∨
     (mapLen (addTunnel env s).1.tunnels = mapLen s.tunnels + 1 ∧
      (mapLen s.tunnels : Int) < s.config.maxTunnels)) := by
  unfold addTunnel
  by_cases hmax : (mapLen s.tunnels : Int) ≥ s.config.maxTunnels
  · rw [if_pos hmax]
    exact ⟨rfl, hc, Or.inl rfl⟩
  · rw [if_neg hmax]
    obtain ⟨hcfg, hok, hfail⟩ := createTunnel_spec env s (mapLen s.tunnels : Int)
    by_cases h : (createTunnel env s (mapLen s.tunnels : Int)).2 = true
    · have ht := hok h
      have hfresh : ∀ p ∈ s.tunnels, p.1 ≠ (mapLen s.tunnels : Int) := by
        intro p hp hpk
        have hm : p.1 ∈ mapKeys s.tunnels := List.mem_map_of_mem Prod.fst hp
        have := (hc.2 p.1).mp hm
        omega
      have hfilter := filter_ne_eq_self s.tunnels (mapLen s.tunnels : Int) hfresh
      have hkeys : mapKeys (createTunnel env s (mapLen s.tunnels : Int)).1.tunnels =
          (mapLen s.tunnels : Int) :: mapKeys s.tunnels := by
        rw [ht]
        unfold mapSet mapKeys
        rw [hfilter]
        rfl
      have hlen : mapLen (createTunnel env s (mapLen s.tunnels : Int)).1.tunnels =
          mapLen s.tunnels + 1 := by
        have h2 : (mapKeys (createTunnel env s (mapLen s.tunnels : Int)).1.tunnels).length =
            ((mapLen s.tunnels : Int) :: mapKeys s.tunnels).length := by rw [hkeys]
        simpa [mapKeys, mapLen] using h2
      refine ⟨hcfg, ⟨?_, ?_⟩, Or.inr ⟨hlen, by omega⟩⟩
      · rw [contiguous] at hc
        rw [hkeys]
        refine List.Nodup.cons ?_ hc.1
        intro hmem
        have := (hc.2 _).mp hmem
        omega
      · intro k
        rw [hkeys, hlen]
        constructor
        · intro hk
          rcases List.mem_cons.mp hk with h | h
          · subst h
            constructor
            · positivity
            · push_cast
              omega
          · have := (hc.2 k).mp h
            push_cast
            omega
        · intro hk
          push_cast at hk
          by_cases hkl : k = (mapLen s.tunnels : Int)
          · exact hkl ▸ List.mem_cons_self _ _
          · exact List.mem_cons_of_mem _ ((hc.2 k).mpr ⟨hk.1, by omega⟩)
    · simp only [Bool.not_eq_true] at h
      have ht := hfail h
      have h1 : mapKeys (createTunnel env s (mapLen s.tunnels : Int)).1.tunnels =
          mapKeys s.tunnels := by rw [ht]
      have h2 : mapLen (createTunnel env s (mapLen s.tunnels : Int)).1.tunnels =
          mapLen s.tunnels := by rw [ht]
      refine ⟨hcfg, ⟨?_, ?_⟩, Or.inl h2⟩
      · rw [h1]
        exact hc.1
      · intro k
        rw [h1, h2]
        exact hc.2 k

theorem mem_mapKeys_mapDelete (m : List (Int × WireGuardTunnel)) (k k' : Int) :
    k' ∈ mapKeys (mapDelete m k) ↔ k' ∈ mapKeys m ∧ k' ≠ k := by
  simp only [mapKeys, mapDelete, List.mem_map, List.mem_filter, decide_eq_true_eq]
  constructor
  · rintro ⟨p, ⟨hp, hne⟩, rfl⟩
    exact ⟨⟨p, hp, rfl⟩, hne⟩
  · rintro ⟨⟨p, hp, rfl⟩, hne⟩
    exact ⟨p, ⟨hp, hne⟩, rfl⟩

theorem nodup_mapKeys_mapDelete (m : List (Int × WireGuardTunnel)) (k : Int)
    (h : (mapKeys m).Nodup) : (mapKeys (mapDelete m k)).Nodup :=
  List.Nodup.sublist (List.Sublist.map Prod.fst (List.filter_sublist m)) h

theorem removeTunnel_spec (env : ManagerEnv) (s : ManagerState) (hc : contiguous s)
    (hmin1 : 1 ≤ s.config.minTunnels) :
    (removeTunnel env s).1.config = s.config ∧
    contiguous (removeTunnel env s).1 ∧
    (mapLen (removeTunnel env s).1.tunnels = mapLen s.tunnels ∨
     (mapLen (removeTunnel env s).1.tunnels + 1 = mapLen s.tunnels ∧
      s.config.minTunnels < (mapLen s.tunnels : Int))) := by
  unfold removeTunnel
  by_cases hle : (mapLen s.tunnels : Int) ≤ s.config.minTunnels
  · rw [if_pos hle]
    exact ⟨rfl, hc, Or.inl rfl⟩
  · rw [if_neg hle]
    have hpos : 0 < mapLen s.tunnels := by omega
    have hhi := highestID_eq s hc hpos
    rw [hhi]
    have hmem : ((mapLen s.tunnels : Int) - 1) ∈ mapKeys s.tunnels :=
      (hc.2 _).mpr ⟨by omega, by omega⟩
    obtain ⟨v, hv⟩ := mapLookup_isSome s.tunnels _ hmem
    by_cases hdn : env.bringDownOk s.drv = true
    · have hres : (destroyTunnel env s ((mapLen s.tunnels : Int) - 1)).1 =
          { s with tunnels := mapDelete s.tunnels ((mapLen s.tunnels : Int) - 1),
                   drv := s.drv + 1 } := by
        simp [destroyTunnel, hv, hdn]
      rw [hres]
      have hlen1 : mapLen (mapDelete s.tunnels ((mapLen s.tunnels : Int) - 1)) + 1 =
          mapLen s.tunnels :=
        length_filter_ne s.tunnels _ hc.1 hmem
      refine ⟨rfl, ⟨nodup_mapKeys_mapDelete _ _ hc.1, ?_⟩, Or.inr ⟨hlen1, by omega⟩⟩
      intro k
      dsimp only
      rw [mem_mapKeys_mapDelete, hc.2 k]
      omega
    · simp only [Bool.not_eq_true] at hdn
      have hres : (destroyTunnel env s ((mapLen s.tunnels : Int) - 1)).1 =
          { s with drv := s.drv + 1 } := by
        simp [destroyTunnel, hv, hdn]
      rw [hres]
      exact ⟨rfl, hc, Or.inl rfl⟩

theorem applyOp_spec (env : ManagerEnv) (op : MgrOp) (s : ManagerState)
    (h1 : 1 ≤ s.config.minTunnels) (hc : contiguous s) :
    (applyOp env s op).config = s.config ∧
    contiguous (applyOp env s op) ∧
    ((mapLen s.tunnels : Int) ≤ s.config.maxTunnels →
      (mapLen (applyOp env s op).tunnels : Int) ≤ s.config.maxTunnels) ∧
    (s.config.minTunnels ≤ (mapLen s.tunnels : Int) →
      s.config.minTunnels ≤ (mapLen (applyOp env s op).tunnels : Int)) := by
  cases op with
  | add =>
      obtain ⟨hcfg, hc', hlen⟩ := addTunnel_spec env s hc
      have heq : mapLen (applyOp env s MgrOp.add).tunnels
          = mapLen (addTunnel env s).1.tunnels := rfl
      refine ⟨hcfg, hc', ?_, ?_⟩ <;> intro hx <;> rw [heq] <;>
        rcases hlen with h | ⟨h, hlt⟩ <;> omega
  | remove =>
      obtain ⟨hcfg, hc', hlen⟩ := removeTunnel_spec env s hc h1
      have heq : mapLen (applyOp env s MgrOp.remove).tunnels
          = mapLen (removeTunnel env s).1.tunnels := rfl
      refine ⟨hcfg, hc', ?_, ?_⟩ <;> intro hx <;> rw [heq] <;>
        rcases hlen with h | ⟨h, hlt⟩ <;> omega

theorem applyOps_preserves (env : ManagerEnv) (ops : List MgrOp) :
    ∀ s : ManagerState, 1 ≤ s.config.minTunnels → contiguous s →
      (applyOps env s ops).config = s.config ∧
      contiguous (applyOps env s ops) ∧
      ((mapLen s.tunnels : Int) ≤ s.config.maxTunnels →
        (mapLen (applyOps env s ops).tunnels : Int) ≤ s.config.maxTunnels) ∧
      (s.config.minTunnels ≤ (mapLen s.tunnels : Int) ∧
          (mapLen s.tunnels : Int) ≤ s.config.maxTunnels →
        s.config.minTunnels ≤ (mapLen (applyOps env s ops).tunnels : Int)) := by
  induction ops with
  | nil => intro s h1 hc; exact ⟨rfl, hc, fun h => h, fun h => h.1⟩
  | cons op rest ih =>
      intro s h1 hc
      obtain ⟨scfg, sc, sb, sm⟩ := applyOp_spec env op s h1 hc
      obtain ⟨icfg, ic, ib, im⟩ := ih (applyOp env s op) (by rw [scfg]; exact h1) sc
      have happ : applyOps env s (op :: rest) = applyOps env (applyOp env s op) rest := rfl
      rw [happ]
      refine ⟨by rw [icfg, scfg], ic, ?_, ?_⟩
      · intro hb
        have := ib (by rw [scfg]; exact sb hb)
        rw [scfg] at this
        exact this
      · rintro ⟨hmin, hmax⟩
        have := im ⟨by rw [scfg]; exact sm hmin, by rw [scfg]; exact sb hmax⟩
        rw [scfg] at this
        exact this

end Tunnel

namespace Tunnel

theorem expectedEntries_zero (env : ManagerEnv) (cfg : TunnelConfig) (i : Nat) :
    expectedEntries env cfg i 0 = [] := rfl

theorem expectedEntries_succ (env : ManagerEnv) (cfg : TunnelConfig) (i k : Nat) :
    expectedEntries env cfg i (k + 1) =
      expectedEntries env cfg (i + 1) k ++ [((i : Int), expectedTunnel env cfg i)] := by
  unfold expectedEntries
  rw [List.range'_succ]
  simp

theorem expectedEntries_length (env : ManagerEnv) (cfg : TunnelConfig) (i k : Nat) :
    (expectedEntries env cfg i k).length = k := by
  simp [expectedEntries]

theorem createTunnel_ok_eq (env : ManagerEnv) (s : ManagerState) (i : Nat)
    (hrng : s.rng = i) (hdrv : s.drv = i) (hup : env.bringUpOk i = true)
    (hkeys : ∀ p ∈ s.tunnels, p.1 < (i : Int)) :
    createTunnel env s ((i : Int)) =
      ({ config := s.config,
         tunnels := ((i : Int), expectedTunnel env s.config i) :: s.tunnels,
         rng := i + 1, drv := i + 1 }, true) := by
  cases s with
  | mk cfg0 tns rng0 drv0 =>
      have hrng' : rng0 = i := hrng
      have hdrv' : drv0 = i := hdrv
      have hkeys' : ∀ p ∈ tns, p.1 < (i : Int) := hkeys
      rw [hrng', hdrv']
      simp [createTunnel, hup, mapSet, expectedTunnel]
      intro a b hab
      have := hkeys' (a, b) hab
      omega

theorem createTunnel_fail_eq (env : ManagerEnv) (s : ManagerState) (i : Nat) (id : Int)
    (hrng : s.rng = i) (hdrv : s.drv = i) (hup : env.bringUpOk i = false) :
    createTunnel env s id =
      ({ config := s.config, tunnels := s.tunnels, rng := i + 1, drv := i + 1 }, false) := by
  cases s with
  | mk cfg0 tns rng0 drv0 =>
      have hrng' : rng0 = i := hrng
      have hdrv' : drv0 = i := hdrv
      rw [hrng', hdrv']
      simp [createTunnel, hup]

theorem createTunnelsGo_ok (env : ManagerEnv) :
    ∀ (cnt i : Nat) (s : ManagerState), s.rng = i → s.drv = i →
    (∀ p ∈ s.tunnels, p.1 < (i : Int)) →
    (∀ j : Nat, i ≤ j → j < i + cnt → env.bringUpOk j = true) →
    createTunnelsGo env s i cnt =
      ({ config := s.config, tunnels := expectedEntries env s.config i cnt ++ s.tunnels,
         rng := i + cnt, drv := i + cnt }, true) := by
  intro cnt
  induction cnt with
  | zero =>
      intro i s hrng hdrv _ _
      cases s with
      | mk cfg0 tns rng0 drv0 =>
          have hrng' : rng0 = i := hrng
          have hdrv' : drv0 = i := hdrv
          rw [hrng', hdrv']
          simp [createTunnelsGo, expectedEntries_zero]
  | succ c ih =>
      intro i s hrng hdrv hkeys hok
      have hup : env.bringUpOk i = true := hok i (by omega) (by omega)
      have hstep := createTunnel_ok_eq env s i hrng hdrv hup hkeys
      have hrec := ih (i + 1)
        ({ config := s.config,
           tunnels := ((i : Int), expectedTunnel env s.config i) :: s.tunnels,
           rng := i + 1, drv := i + 1 }) rfl rfl
        (by
          intro p hp
          rcases List.mem_cons.mp hp with h | h
          · subst h
            show (i : Int) < ((i + 1 : Nat) : Int)
            push_cast
            omega
          · have := hkeys p h
            push_cast
            omega)
        (fun j h1 h2 => hok j (by omega) (by omega))
      show (if (createTunnel env s ((i : Int))).2 = true then
              createTunnelsGo env (createTunnel env s ((i : Int))).1 (i + 1) c
            else ((createTunnel env s ((i : Int))).1, false)) = _
      rw [hstep]
      simp only [if_true]
      rw [hrec, expectedEntries_succ]
      have harith : i + 1 + c = i + (c + 1) := by omega
      simp [harith, List.append_assoc]

theorem createTunnelsGo_fail (env : ManagerEnv) :
    ∀ (k cnt i : Nat) (s : ManagerState), s.rng = i → s.drv = i →
    (∀ p ∈ s.tunnels, p.1 < (i : Int)) →
    (∀ j : Nat, i ≤ j → j < i + k → env.bringUpOk j = true) →
    env.bringUpOk (i + k) = false → k < cnt →
    createTunnelsGo env s i cnt =
      ({ config := s.config, tunnels := expectedEntries env s.config i k ++ s.tunnels,
         rng := i + k + 1, drv := i + k + 1 }, false) := by
  intro k
  induction k with
  | zero =>
      intro cnt i s hrng hdrv hkeys _ hfail hlt
      match cnt, hlt with
      | c + 1, _ =>
          have hstep := createTunnel_fail_eq env s i ((i : Int)) hrng hdrv (by simpa using hfail)
          show (if (createTunnel env s ((i : Int))).2 = true then
                  createTunnelsGo env (createTunnel env s ((i : Int))).1 (i + 1) c
                else ((createTunnel env s ((i : Int))).1, false)) = _
          rw [hstep]
          simp [expectedEntries_zero]
  | succ m ih =>
      intro cnt i s hrng hdrv hkeys hok hfail hlt
      match cnt, hlt with
      | c + 1, _ =>
          have hup : env.bringUpOk i = true := hok i (by omega) (by omega)
          have hstep := createTunnel_ok_eq env s i hrng hdrv hup hkeys
          have hrec := ih c (i + 1)
            ({ config := s.config,
               tunnels := ((i : Int), expectedTunnel env s.config i) :: s.tunnels,
               rng := i + 1, drv := i + 1 }) rfl rfl
            (by
              intro p hp
              rcases List.mem_cons.mp hp with h | h
              · subst h
                show (i : Int) < ((i + 1 : Nat) : Int)
                push_cast
                omega
              · have := hkeys p h
                push_cast
                omega)
            (fun j h1 h2 => hok j (by omega) (by omega))
            (by
              have h9 : i + 1 + m = i + (m + 1) := by omega
              rw [h9]
              exact hfail)
            (by omega)
          show (if (createTunnel env s ((i : Int))).2 = true then
                  createTunnelsGo env (createTunnel env s ((i : Int))).1 (i + 1) c
                else ((createTunnel env s ((i : Int))).1, false)) = _
          rw [hstep]
          simp only [if_true]
          rw [hrec, expectedEntries_succ]
          have harith : i + 1 + m = i + m + 1 := by omega
          simp [harith, List.append_assoc]
          all_goals omega

end Tunnel

namespace Tunnel

theorem mapLookup_eq_some (m : List (Int × WireGuardTunnel)) (k : Int) (v : WireGuardTunnel)
    (hnd : (mapKeys m).Nodup) (hmem : (k, v) ∈ m) : mapLookup m k = some v := by
  induction m with
  | nil => cases hmem
  | cons p rest ih =>
      simp only [mapKeys, List.map_cons, List.nodup_cons] at hnd
      rcases List.mem_cons.mp hmem with h | h
      · rw [← h]
        simp [mapLookup, List.find?]
      · have hp1 : ¬ (p.1 = k) := by
          intro he
          apply hnd.1
          rw [he]
          exact List.mem_map_of_mem Prod.fst h
        have hd : (decide (p.1 = k)) = false := by simp [hp1]
        simp only [mapLookup, List.find?, hd]
        exact ih hnd.2 h

theorem mem_expectedEntries (env : ManagerEnv) (cfg : TunnelConfig) (i k : Nat) (j : Nat)
    (h1 : i ≤ j) (h2 : j < i + k) :
    ((j : Int), expectedTunnel env cfg j) ∈ expectedEntries env cfg i k := by
  unfold expectedEntries
  rw [List.mem_map]
  exact ⟨j, by rw [List.mem_reverse, List.mem_range'_1]; exact ⟨h1, h2⟩, rfl⟩

theorem nodup_keys_expectedEntries (env : ManagerEnv) (cfg : TunnelConfig) (i k : Nat) :
    (mapKeys (expectedEntries env cfg i k)).Nodup := by
  unfold mapKeys expectedEntries
  rw [List.map_map]
  refine List.Nodup.map ?_ (List.nodup_reverse.mpr (List.nodup_range' i k))
  intro a b hab
  simpa using hab

theorem createTunnels_ok_eq (cfg : TunnelConfig) (env : ManagerEnv) (n : Nat)
    (hn : (n : Int) ≤ cfg.maxTunnels)
    (hok : ∀ j : Nat, j < n → env.bringUpOk j = true) :
    createTunnels env (freshManager cfg) (n : Int) =
      ({ config := cfg, tunnels := expectedEntries env cfg 0 n, rng := n, drv := n }, true) := by
  have hng : ¬ ((n : Int) > (freshManager cfg).config.maxTunnels) := by
    show ¬ ((n : Int) > cfg.maxTunnels)
    omega
  have htn : ((n : Int)).toNat = n := by simp
  have hgo := createTunnelsGo_ok env n 0 (freshManager cfg) rfl rfl
    (by intro p hp; simp [freshManager] at hp)
    (fun j h0 hj => hok j (by omega))
  unfold createTunnels
  rw [if_neg hng, htn, hgo]
  simp [freshManager]

theorem createTunnels_fail_eq (cfg : TunnelConfig) (env : ManagerEnv) (n k : Nat)
    (hk : k < n) (hn : (n : Int) ≤ cfg.maxTunnels)
    (hok : ∀ j : Nat, j < k → env.bringUpOk j = true)
    (hfail : env.bringUpOk k = false) :
    createTunnels env (freshManager cfg) (n : Int) =
      ({ config := cfg, tunnels := expectedEntries env cfg 0 k,
         rng := k + 1, drv := k + 1 }, false) := by
  have hng : ¬ ((n : Int) > (freshManager cfg).config.maxTunnels) := by
    show ¬ ((n : Int) > cfg.maxTunnels)
    omega
  have htn : ((n : Int)).toNat = n := by simp
  have hgo := createTunnelsGo_fail env k n 0 (freshManager cfg) rfl rfl
    (by intro p hp; simp [freshManager] at hp)
    (fun j h0 hj => hok j (by omega))
    (by simpa using hfail) hk
  unfold createTunnels
  rw [if_neg hng, htn, hgo]
  simp [freshManager]

end Tunnel

/-- C4 corrected (amended): when the driver fails on tunnel `k` after
tunnels `0, …, k−1` came up, `create_tunnels(n)` returns an error but does
NOT destroy the tunnels created before the failure: they remain in the
manager, so a failed `create_tunnels` leaves a partially created tunnel
set of exactly `k` tunnels. -/
theorem C4_no_rollback_amended (cfg : Tunnel.TunnelConfig) (env : Tunnel.ManagerEnv) (n k : Nat)
    (hk : k < n) (hn : (n : Int) ≤ cfg.maxTunnels)
    (hok : ∀ j : Nat, j < k → env.bringUpOk j = true)
    (hfail : env.bringUpOk k = false) :
    (Tunnel.createTunnels env (Tunnel.freshManager cfg) (n : Int)).2 = false ∧
    (Tunnel.createTunnels env (Tunnel.freshManager cfg) (n : Int)).1.tunnels =
      Tunnel.expectedEntries env cfg 0 k ∧
    Tunnel.mapLen (Tunnel.createTunnels env (Tunnel.freshManager cfg) (n : Int)).1.tunnels = k := by
  rw [Tunnel.createTunnels_fail_eq cfg env n k hk hn hok hfail]
  exact ⟨rfl, rfl, Tunnel.expectedEntries_length env cfg 0 k⟩

/-- C5 corrected (amended): after a successful `create_tunnels(n)` from a
fresh manager, tunnel `i` has `listen_port = base_port + i` and
`local_address = 10.100.(i+1).1/24` — the hard-coded default, for every
configured base CIDR, not the configured CIDR with its third octet
replaced — and, provided the random source returns distinct byte vectors
(overwhelmingly probable for a CSPRNG), the generated key pairs are
pairwise distinct. -/
theorem C5_allocation_amended (cfg : Tunnel.TunnelConfig) (env : Tunnel.ManagerEnv) (n : Nat)
    (hn : (n : Int) ≤ cfg.maxTunnels)
    (hok : ∀ j : Nat, j < n → env.bringUpOk j = true)
    (hval : ∀ j : Nat, j < n → ∀ x ∈ env.randBytes j, x < 256)
    (hinj : ∀ j1 j2 : Nat, j1 < n → j2 < n → env.randBytes j1 = env.randBytes j2 → j1 = j2) :
    (Tunnel.createTunnels env (Tunnel.freshManager cfg) (n : Int)).2 = true ∧
    (∀ j : Nat, j < n →
      Tunnel.mapLookup (Tunnel.createTunnels env (Tunnel.freshManager cfg) (n : Int)).1.tunnels
        (j : Int) = some (Tunnel.expectedTunnel env cfg j)) ∧
    (∀ j : Nat,
      (Tunnel.expectedTunnel env cfg j).port = cfg.listenPort + (j : Int) ∧
      (Tunnel.expectedTunnel env cfg j).endpointIP =
        "10.100." ++ toString ((j : Int) + 1) ++ ".1/24" ∧
      (Tunnel.expectedTunnel env cfg j).privateKey = base64Encode (env.randBytes j)) ∧
    (∀ j1 j2 : Nat, j1 < n → j2 < n →
      (Tunnel.expectedTunnel env cfg j1).privateKey =
        (Tunnel.expectedTunnel env cfg j2).privateKey → j1 = j2) := by
  rw [Tunnel.createTunnels_ok_eq cfg env n hn hok]
  refine ⟨rfl, ?_, fun j => ⟨rfl, rfl, rfl⟩, ?_⟩
  · intro j hj
    exact Tunnel.mapLookup_eq_some _ _ _ (Tunnel.nodup_keys_expectedEntries env cfg 0 n)
      (Tunnel.mem_expectedEntries env cfg 0 n j (by omega) (by omega))
  · intro j1 j2 h1 h2 heq
    exact hinj j1 j2 h1 h2
      (encB64_inj (hval j1 h1) (hval j2 h2) (congrArg String.data heq))

/-- C1 corrected (amended): (i) from any state satisfying the manager
invariant — bounds `a ≤ N ≤ b` with tunnel ids exactly `{0, …, N−1}` — any
sequence of `add_tunnel`/`remove_tunnel` calls preserves it; (ii) from a
freshly constructed manager (which starts at `N = 0`, below the claimed
lower bound `a`) any call sequence keeps the ids exactly `{0, …, N−1}` and
`N ≤ b`; (iii) removal always targets the highest id `N−1`, so ids are
never reused while the set is contiguous. -/
theorem C1_manager_invariant_amended (a b : Int) (env : Tunnel.ManagerEnv) (ops : List Tunnel.MgrOp)
    (ha : 1 ≤ a) (hab : a ≤ b) :
    (∀ s : Tunnel.ManagerState, Tunnel.managerInv a b s →
       Tunnel.managerInv a b (Tunnel.applyOps env s ops)) ∧
    (∀ cfg : Tunnel.TunnelConfig, cfg.minTunnels = a → cfg.maxTunnels = b →
       Tunnel.contiguous (Tunnel.applyOps env (Tunnel.freshManager cfg) ops) ∧
       (Tunnel.mapLen (Tunnel.applyOps env (Tunnel.freshManager cfg) ops).tunnels : Int) ≤ b) ∧
    (∀ s : Tunnel.ManagerState, Tunnel.contiguous s → 0 < Tunnel.mapLen s.tunnels →
       (Tunnel.mapKeys s.tunnels).foldl max 0 = (Tunnel.mapLen s.tunnels : Int) - 1) := by
  refine ⟨?_, ?_, fun s hc hpos => Tunnel.highestID_eq s hc hpos⟩
  · rintro s ⟨hmin, hmax, hc, hge, hle⟩
    obtain ⟨icfg, ic, ib, im⟩ := Tunnel.applyOps_preserves env ops s (by omega) hc
    refine ⟨by rw [icfg, hmin], by rw [icfg, hmax], ic, ?_, ?_⟩
    · have := im ⟨by omega, by omega⟩
      omega
    · have := ib (by omega)
      omega
  · intro cfg hcfga hcfgb
    have hcmin : (Tunnel.freshManager cfg).config.minTunnels = a := hcfga
    have hcmax : (Tunnel.freshManager cfg).config.maxTunnels = b := hcfgb
    have hzero : Tunnel.mapLen (Tunnel.freshManager cfg).tunnels = 0 := rfl
    have hc0 : Tunnel.contiguous (Tunnel.freshManager cfg) := by
      constructor
      · exact List.nodup_nil
      · intro k
        constructor
        · intro hk
          simp [Tunnel.freshManager, Tunnel.mapKeys] at hk
        · rintro ⟨h0, hlt⟩
          rw [hzero] at hlt
          push_cast at hlt
          omega
    obtain ⟨icfg, ic, ib, im⟩ := Tunnel.applyOps_preserves env ops (Tunnel.freshManager cfg)
      (by rw [hcmin]; omega) hc0
    refine ⟨ic, ?_⟩
    have h2 := ib (by rw [hzero, hcmax]; push_cast; omega)
    rw [hcmax] at h2
    exact h2



/-- C1 witness: three calls on a fresh default manager keep the id set
contiguous and within the maximum. -/
theorem C1_manager_invariant_amended_witness :
    Tunnel.contiguous (Tunnel.applyOps allOkEnv (Tunnel.freshManager cfgStd)
      [Tunnel.MgrOp.add, Tunnel.MgrOp.add, Tunnel.MgrOp.remove]) ∧
    (Tunnel.mapLen (Tunnel.applyOps allOkEnv (Tunnel.freshManager cfgStd)
      [Tunnel.MgrOp.add, Tunnel.MgrOp.add, Tunnel.MgrOp.remove]).tunnels : Int) ≤ 8 :=
  (C1_manager_invariant_amended 1 8 allOkEnv
    [Tunnel.MgrOp.add, Tunnel.MgrOp.add, Tunnel.MgrOp.remove]
    (by decide) (by decide)).2.1 cfgStd rfl rfl

/-- C1 counterexample: a fresh manager instantiated with `min_tunnels = 2`,
`max_tunnels = 3` has `N = 1 < 2` after one successful `add_tunnel`, so the
claimed bound `a ≤ N` does not hold after every call sequence. -/
theorem C1_manager_invariant_counterexample :
    cfgMin2.minTunnels = 2 ∧
    (Tunnel.mapLen (Tunnel.applyOps allOkEnv (Tunnel.freshManager cfgMin2)
      [Tunnel.MgrOp.add]).tunnels : Int) = 1 ∧
    ¬(cfgMin2.minTunnels ≤
      (Tunnel.mapLen (Tunnel.applyOps allOkEnv (Tunnel.freshManager cfgMin2)
        [Tunnel.MgrOp.add]).tunnels : Int)) := by
  decide

/-- C4 witness: with a driver that brings up only tunnel 0,
`create_tunnels(2)` fails and one tunnel remains. -/
theorem C4_no_rollback_amended_witness :
    (Tunnel.createTunnels (envUpOkBelow 1) (Tunnel.freshManager cfgStd) 2).2 = false ∧
    Tunnel.mapLen (Tunnel.createTunnels (envUpOkBelow 1)
      (Tunnel.freshManager cfgStd) 2).1.tunnels = 1 := by
  have h := C4_no_rollback_amended cfgStd (envUpOkBelow 1) 2 1 (by omega) (by decide)
    (fun j hj => by
      simp only [envUpOkBelow, decide_eq_true_eq]
      omega)
    (by decide)
  exact ⟨h.1, h.2.2⟩

/-- C4 counterexample: with a driver that brings up tunnels 0 and 1 and
fails on tunnel 2, `create_tunnels(3)` returns an error yet leaves two
tunnels in the manager — not the empty set the claim requires. -/
theorem C4_no_rollback_counterexample :
    (Tunnel.createTunnels (envUpOkBelow 2) (Tunnel.freshManager cfgStd) 3).2 = false ∧
    Tunnel.mapLen (Tunnel.createTunnels (envUpOkBelow 2)
      (Tunnel.freshManager cfgStd) 3).1.tunnels = 2 ∧
    ¬(Tunnel.mapLen (Tunnel.createTunnels (envUpOkBelow 2)
      (Tunnel.freshManager cfgStd) 3).1.tunnels = 0) := by
  decide

/-- C5 witness: two tunnels created from a fresh default manager with a
random source giving distinct bytes per invocation. -/
theorem C5_allocation_amended_witness :
    (Tunnel.createTunnels keyedEnv (Tunnel.freshManager cfgStd) 2).2 = true ∧
    Tunnel.mapLookup (Tunnel.createTunnels keyedEnv
      (Tunnel.freshManager cfgStd) 2).1.tunnels 0
      = some (Tunnel.expectedTunnel keyedEnv cfgStd 0) := by
  have h := C5_allocation_amended cfgStd keyedEnv 2 (by decide)
    (fun j hj => rfl)
    (by
      intro j hj x hx
      rcases List.mem_cons.mp hx with h | h
      · subst h
        omega
      · have := List.eq_of_mem_replicate h
        omega)
    (by
      intro j1 j2 h1 h2 heq
      simp only [keyedEnv] at heq
      injection heq with hh _
      omega)
  exact ⟨h.1, h.2.1 0 (by omega)⟩

/-- C5 counterexample: with `base_cidr = 192.168.0.0/16`, the tunnel 0
created by `create_tunnels(1)` has local address `10.100.1.1/24` — the
hard-coded default — and not `192.168.1.1/24` as the claim requires for a
non-default base CIDR. -/
theorem C5_allocation_counterexample :
    cfgAltCIDR.baseCIDR = "192.168.0.0/16" ∧
    (Tunnel.createTunnels allOkEnv (Tunnel.freshManager cfgAltCIDR) 1).2 = true ∧
    (Tunnel.mapLookup (Tunnel.createTunnels allOkEnv
      (Tunnel.freshManager cfgAltCIDR) 1).1.tunnels 0).map (fun t => t.endpointIP)
      = some "10.100.1.1/24" ∧
    some "10.100.1.1/24" ≠ some "192.168.1.1/24" := by
  decide

namespace Network

theorem testMTUThroughput_isSome (mtu : Int) (h : mtu ≠ 0) :
    testMTUThroughput mtu = some (ratTrunc ((500 * 1024 * 1024 : ℚ) * (((mtu : ℚ) - 40) / (mtu : ℚ)))) := by
  unfold testMTUThroughput
  rw [if_neg h]

theorem testBandwidth_isSome (s : Int) (h : 0 < s) : ∃ v, testBandwidth s = some v := by
  unfold testBandwidth
  rw [if_neg (by omega : ¬ s ≤ 0)]
  by_cases h4 : s ≤ 4
  · rw [if_pos h4]
    exact ⟨_, rfl⟩
  · rw [if_neg h4]
    exact ⟨_, rfl⟩

theorem mtuLoop_isSome (env : ProbeEnv) (jumbo : Bool) (ep : String) :
    ∀ (l : List Int) (acc : MTUAcc), (∀ m ∈ l, m ≠ 0) →
      ∃ acc2, mtuLoop env jumbo ep l acc = some acc2 := by
  intro l
  induction l with
  | nil => intro acc _; exact ⟨acc, rfl⟩
  | cons mtu rest ih =>
      intro acc hl
      have hrest : ∀ m ∈ rest, m ≠ 0 := fun m hm => hl m (List.mem_cons_of_mem _ hm)
      unfold mtuLoop
      by_cases hc1 : 1500 < mtu ∧ jumbo = false
      · rw [if_pos hc1]
        exact ih acc hrest
      · rw [if_neg hc1]
        by_cases hc2 : env.pathMTUOk ep mtu = false
        · rw [if_pos hc2]
          exact ih acc hrest
        · rw [if_neg hc2]
          rw [testMTUThroughput_isSome mtu (hl mtu (List.mem_cons_self _ _))]
          exact ih _ hrest

theorem mtuLoop_all_skip (env : ProbeEnv) (jumbo : Bool) (ep : String)
    (hfail : ∀ m, env.pathMTUOk ep m = false) :
    ∀ (l : List Int) (acc : MTUAcc), mtuLoop env jumbo ep l acc = some acc := by
  intro l
  induction l with
  | nil => intro acc; rfl
  | cons mtu rest ih =>
      intro acc
      unfold mtuLoop
      by_cases hc1 : 1500 < mtu ∧ jumbo = false
      · rw [if_pos hc1]
        exact ih acc
      · rw [if_neg hc1, if_pos (hfail mtu)]
        exact ih acc

theorem bwLoop_isSome (cfg : ProbeConfig) :
    ∀ (l : List Int) (acc : BWAcc), (∀ s ∈ l, 0 < s) →
      ∃ acc2, bwLoop cfg l acc = some acc2 := by
  intro l
  induction l with
  | nil => intro acc _; exact ⟨acc, rfl⟩
  | cons s rest ih =>
      intro acc hl
      obtain ⟨v, hv⟩ := testBandwidth_isSome s (hl s (List.mem_cons_self _ _))
      unfold bwLoop
      rw [hv]
      exact ih _ (fun x hx => hl x (List.mem_cons_of_mem _ hx))

theorem measure_foldl_all_fail (env : ProbeEnv)
    (hlat : ∀ e, ∃ msg, env.latency e = Except.error msg) :
    ∀ (rs : List String) (acc : List (String × Int)),
      List.foldl (fun acc region =>
        match getTestEndpoint region with
        | Except.error _ => acc
        | Except.ok ep =>
            match env.latency ep with
            | Except.error _ => acc
            | Except.ok lat => acc ++ [(region, lat)]) acc rs = acc := by
  intro rs
  induction rs with
  | nil => intro acc; rfl
  | cons r rest ih =>
      intro acc
      rw [List.foldl_cons]
      have hstep : (match getTestEndpoint r with
          | Except.error _ => acc
          | Except.ok ep =>
              match env.latency ep with
              | Except.error _ => acc
              | Except.ok lat => acc ++ [(r, lat)]) = acc := by
        cases hq : getTestEndpoint r with
        | error e => rfl
        | ok ep =>
            obtain ⟨msg, hm⟩ := hlat ep
            show (match env.latency ep with
              | Except.error _ => acc
              | Except.ok lat => acc ++ [(r, lat)]) = acc
            rw [hm]
      rw [hstep]
      exact ih acc

theorem measureRegionLatencies_all_fail (env : ProbeEnv) (cfg : ProbeConfig)
    (hlat : ∀ e, ∃ msg, env.latency e = Except.error msg) :
    measureRegionLatencies env cfg = [] := by
  unfold measureRegionLatencies
  exact measure_foldl_all_fail env hlat cfg.testRegions []

end Network

/-- **C6** (corrected) — the code does NOT fail the probe when every
sub-test of phase 2 (optimal-MTU search) or phase 3 (region latency
measurement) fails: whenever phase 1 resolves an interface, the region has
a test endpoint and the stream counts are positive, the probe returns
`ok` even if every path-MTU ping and every
latency ping fails — with `mtuTests` empty, `optimalMTU` left at the 1500
default, and `awsRegionLatencies` empty, exactly the "results with that
phase's fields empty or zero" the claim rules out. -/
theorem C6_phase_failure_amended (env : Network.ProbeEnv) (cfg : Network.ProbeConfig)
    (region : String) (iface : Network.NetworkInterface)
    (h1 : env.defaultInterface = Except.ok iface)
    (hep : ∃ ep, Network.getTestEndpoint region = Except.ok ep)
    (hstr : ∀ s ∈ cfg.parallelStreams, 0 < s)
    (hfail : ∀ e m, env.pathMTUOk e m = false)
    (hlat : ∀ e, ∃ msg, env.latency e = Except.error msg) :
    ∃ r : Network.ProbeResults,
      Network.probeNetwork env cfg region = some (Except.ok r) ∧
      r.mtuTests = [] ∧ r.optimalMTU = 1500 ∧ r.awsRegionLatencies = [] := by
  obtain ⟨ep, hepx⟩ := hep
  have hM : Network.discoverOptimalMTU env cfg region =
      some (Except.ok { bestMTU := 1500, bestThroughput := 0, tests := [] }) := by
    unfold Network.discoverOptimalMTU
    rw [hepx]
    show (match Network.mtuLoop env cfg.enableJumboFrames ep cfg.mtuDiscoveryRange
            { bestMTU := 1500, bestThroughput := 0, tests := [] } with
          | none => none
          | some acc => some (Except.ok acc)) =
        some (Except.ok { bestMTU := 1500, bestThroughput := 0, tests := [] })
    rw [Network.mtuLoop_all_skip env cfg.enableJumboFrames ep (fun m => hfail ep m)]
  have hL : Network.measureRegionLatencies env cfg = [] :=
    Network.measureRegionLatencies_all_fail env cfg hlat
  obtain ⟨accB, hbw⟩ := Network.bwLoop_isSome cfg cfg.parallelStreams
    { baseline := 0, bestStreams := 1, bestThroughput := 0, tests := [] } hstr
  have hB : Network.discoverBandwidthCapacity cfg region = some (Except.ok accB) := by
    unfold Network.discoverBandwidthCapacity
    rw [hepx]
    show (match Network.bwLoop cfg cfg.parallelStreams
            { baseline := 0, bestStreams := 1, bestThroughput := 0, tests := [] } with
          | none => none
          | some acc => some (Except.ok acc)) = some (Except.ok accB)
    rw [hbw]
  unfold Network.probeNetwork
  rw [h1, hM, hL, hB]
  exact ⟨_, rfl, rfl, rfl, rfl⟩

theorem C6_phase_failure_amended_witness :
    ∃ r : Network.ProbeResults,
      Network.probeNetwork failingProbeEnv Network.defaultProbeConfig "us-west-2" =
        some (Except.ok r) ∧
      r.mtuTests = [] ∧ r.optimalMTU = 1500 ∧ r.awsRegionLatencies = [] :=
  C6_phase_failure_amended failingProbeEnv Network.defaultProbeConfig "us-west-2"
    { name := "eth0", speed := 10000000000, mtu := 1500, driver := "mlx5",
      offloading := [], queueCount := 8 }
    rfl ⟨"ec2.us-west-2.amazonaws.com", rfl⟩ (by decide)
    (fun _ _ => rfl) (fun _ => ⟨"ping failed", rfl⟩)

/-- **C6** — counterexample to the frozen claim: in the environment where
every path-MTU ping and every latency ping fails, `ProbeNetwork` on
`us-west-2` with the default configuration returns a SUCCESSFUL result whose
MTU test list and region-latency list are empty and whose optimal MTU is the
untested 1500 default, instead of returning an error. -/
theorem C6_phase_failure_counterexample :
    (Network.probeNetwork failingProbeEnv Network.defaultProbeConfig "us-west-2").map
      (fun e => e.map (fun r => (r.mtuTests, r.awsRegionLatencies, r.optimalMTU))) =
    some (Except.ok ([], [], 1500)) := by rfl
